import Mathlib

/-!
Shallow embedding of the GoGB Game Boy emulator core (package `gb`:
`cpu.go`, `memory.go`) and proofs about the claims of its specification.

Conventions of the embedding:
* Go `uint8` / `uint16` values are `Nat` with explicit `% 256` / `% 65536`
  (or `&&& 0xFF` / `&&& 0xFFFF`) exactly where Go's fixed-width arithmetic
  truncates.
* Go array fields are total functions `Nat → Nat`; array indexing carries
  Go's runtime bounds check, so a read is a `ReadResult` that distinguishes
  a successful byte from an index-out-of-range panic and from the explicit
  `panic("Invalid memory address")` in the source's `default` branch.
* Functions that can panic return `Option` (`none` = runtime panic).
* The CPU's instruction table and ticks table are installed once by
  `CreateTable` / `CreateTicks` and never mutated, so they are modelled as
  the top-level lookup functions `CreateTable` and `CreateTicks` rather
  than as fields of the `CPU` state.
-/

set_option maxRecDepth 8192

namespace GoGB

/-! ## Registers (`cpu.go`) -/

/-- The Game Boy register file: eight 8-bit registers plus the 16-bit
program counter and stack pointer (`cpu.go`, `type Registers`). -/
structure Registers where
  a : Nat
  b : Nat
  c : Nat
  d : Nat
  e : Nat
  h : Nat
  l : Nat
  f : Nat
  pc : Nat
  sp : Nat
  deriving Repr, DecidableEq

/-- `Registers.GetBC`: `(uint16(r.b) << 8) | uint16(r.c)`. -/
def Registers.GetBC (r : Registers) : Nat :=
  (r.b <<< 8) ||| r.c

/-- `Registers.GetDE`. -/
def Registers.GetDE (r : Registers) : Nat :=
  (r.d <<< 8) ||| r.e

/-- `Registers.GetHL`. -/
def Registers.GetHL (r : Registers) : Nat :=
  (r.h <<< 8) ||| r.l

/-- `Registers.SetBC`: `b = (value & 0xFF00) >> 8`, `c = value & 0xFF`. -/
def Registers.SetBC (r : Registers) (value : Nat) : Registers :=
  { r with b := (value &&& 0xFF00) >>> 8, c := value &&& 0xFF }

/-- `Registers.SetDE`. -/
def Registers.SetDE (r : Registers) (value : Nat) : Registers :=
  { r with d := (value &&& 0xFF00) >>> 8, e := value &&& 0xFF }

/-- `Registers.SetHL`. -/
def Registers.SetHL (r : Registers) (value : Nat) : Registers :=
  { r with h := (value &&& 0xFF00) >>> 8, l := value &&& 0xFF }

/-- `Registers.GetZero`: `(r.f & 0x80) >> 7`. -/
def Registers.GetZero (r : Registers) : Nat :=
  (r.f &&& 0x80) >>> 7

/-- `Registers.GetSubtract`: `(r.f & 0x40) >> 6`. -/
def Registers.GetSubtract (r : Registers) : Nat :=
  (r.f &&& 0x40) >>> 6

/-- `Registers.GetHalfCarry`: `(r.f & 0x20) >> 5`. -/
def Registers.GetHalfCarry (r : Registers) : Nat :=
  (r.f &&& 0x20) >>> 5

/-- `Registers.GetCarry`: `(r.f & 0x10) >> 4`. -/
def Registers.GetCarry (r : Registers) : Nat :=
  (r.f &&& 0x10) >>> 4

/-- `Registers.SetZero`: or in `0x80`, or mask with `0x7F`. -/
def Registers.SetZero (r : Registers) (value : Bool) : Registers :=
  if value then { r with f := r.f ||| 0x80 } else { r with f := r.f &&& 0x7F }

/-- `Registers.SetSubtract`: or in `0x40`, or mask with `0xBF`. -/
def Registers.SetSubtract (r : Registers) (value : Bool) : Registers :=
  if value then { r with f := r.f ||| 0x40 } else { r with f := r.f &&& 0xBF }

/-- `Registers.SetHalfCarry`: or in `0x20`, or mask with `0xDF`. -/
def Registers.SetHalfCarry (r : Registers) (value : Bool) : Registers :=
  if value then { r with f := r.f ||| 0x20 } else { r with f := r.f &&& 0xDF }

/-- `Registers.SetCarry`: or in `0x10`, or mask with `0xEF`. -/
def Registers.SetCarry (r : Registers) (value : Bool) : Registers :=
  if value then { r with f := r.f ||| 0x10 } else { r with f := r.f &&& 0xEF }

/-! ## Memory map (`memory.go`) -/

/-- The backing stores of `type MemoryMap` (`memory.go`): each Go array
field becomes a total function from index to byte; the declared Go array
sizes are enforced by the bounds checks in `Read8`. -/
structure MemoryMap where
  cart : Nat → Nat
  vram : Nat → Nat
  sram : Nat → Nat
  wram : Nat → Nat
  oam : Nat → Nat
  hram : Nat → Nat
  io : Nat → Nat

def ROM_END : Nat := 0x8000
def VRAM_END : Nat := 0xA000
def SRAM_END : Nat := 0xC000
def WRAM_END : Nat := 0xD000
def ECHO_END : Nat := 0xFE00
def OAM_END : Nat := 0xFEA0
def UNUSED_END : Nat := 0xFF00
def IO_END : Nat := 0xFF80
def HRAM_END : Nat := 0xFFFF

/-- Outcome of a byte read: a byte, a Go index-out-of-range runtime panic
from an array access, or the source's explicit
`panic("Invalid memory address")` in the `default` branch. -/
inductive ReadResult where
  | ok (b : Nat)
  | panicIndexOutOfRange
  | panicInvalidAddress
  deriving Repr, DecidableEq

/-- Go's bounds-checked array read: `arr[i]` on an array of length `size`,
panicking (index out of range) when `i ≥ size`. -/
def arrayGet (size : Nat) (arr : Nat → Nat) (i : Nat) : ReadResult :=
  if i < size then .ok (arr i) else .panicIndexOutOfRange

/-- `MemoryMap.Read8` (`memory.go`): the ordered range dispatch. Array
sizes are the declared Go sizes: `cart [0x8000]`, `vram`/`sram`/`wram`
`[0x2000]`, `oam [0x100]`, `io [0x100]`, `hram [0x80]`. -/
def MemoryMap.Read8 (mem : MemoryMap) (address : Nat) : ReadResult :=
  if address < ROM_END then
    arrayGet 0x8000 mem.cart address
  else if address < VRAM_END then
    arrayGet 0x2000 mem.vram (address - ROM_END)
  else if address < SRAM_END then
    arrayGet 0x2000 mem.sram (address - VRAM_END)
  else if address < WRAM_END then
    arrayGet 0x2000 mem.wram (address - SRAM_END)
  else if address < ECHO_END then
    arrayGet 0x2000 mem.wram (address - WRAM_END)
  else if address < OAM_END then
    arrayGet 0x100 mem.oam (address - ECHO_END)
  else if address < UNUSED_END then
    .ok 0
  else if address < IO_END then
    arrayGet 0x100 mem.io (address - UNUSED_END)
  else if address < HRAM_END then
    arrayGet 0x80 mem.hram (address - IO_END)
  else if address = 0xFFFF then
    .ok 0
  else
    .panicInvalidAddress

/-- `MemoryMap.Write8` (`memory.go`): every region case has an empty body
(the write is dropped); only the `default` branch acts, with
`panic("Invalid memory address")` (`none`). -/
def MemoryMap.Write8 (mem : MemoryMap) (address : Nat) (_value : Nat) :
    Option MemoryMap :=
  if address < ROM_END then some mem
  else if address < VRAM_END then some mem
  else if address < SRAM_END then some mem
  else if address < WRAM_END then some mem
  else if address < ECHO_END then some mem
  else if address < OAM_END then some mem
  else if address < UNUSED_END then some mem
  else if address < IO_END then some mem
  else if address < HRAM_END then some mem
  else if address = 0xFFFF then some mem
  else none

/-- `MemoryMap.Write16` (`memory.go`): the function body is empty — the
write is a no-op. -/
def MemoryMap.Write16 (mem : MemoryMap) (_address : Nat) (_value : Nat) :
    MemoryMap :=
  mem

/-- `MemoryMap.Read16` (`memory.go`): the body only contains TODO comments
and `return 0`. -/
def MemoryMap.Read16 (_mem : MemoryMap) (_address : Nat) : Nat :=
  0

/-- `MemoryMap.WriteToStack16` (`memory.go`): decrements `sp` by 2 with
`uint16` wrap-around; the `// call write 16 to sp` step is absent, so the
memory is returned unchanged. Result is `(memory, new sp)`. -/
def MemoryMap.WriteToStack16 (mem : MemoryMap) (_value : Nat) (sp : Nat) :
    MemoryMap × Nat :=
  (mem, (sp + 65536 - 2) % 65536)

/-! ## CPU state and ALU helpers (`cpu.go`) -/

/-- `type OperandInfo` (`cpu.go`): the decoded operand passed to an
instruction's execute function. -/
structure OperandInfo where
  operand8 : Nat
  operand16 : Nat
  deriving Repr, DecidableEq

/-- The mutable CPU state of `type CPU` (`cpu.go`). The `table` and
`ticksTable` fields are installed once by `CreateTable`/`CreateTicks` and
never change, so they live outside the state as the top-level functions
`CreateTable` and `CreateTicks`. -/
structure CPU where
  regs : Registers
  mem : MemoryMap
  ticks : Nat
  stopped : Bool

/-- `CPU.ADD` (`cpu.go`): 8-bit add through a pointer to the target
register. The Go code writes the 8-bit result through the pointer
*before* computing the flags, so the half-carry test reads the already
updated value (`*address & 0x0F`), not the original operand nibble. The
result is the flag-updated CPU together with the new pointee value. -/
def CPU.ADD (cpu : CPU) (addrVal value : Nat) : CPU × Nat :=
  let result := addrVal + value
  let newVal := result &&& 0xFF
  let r1 := cpu.regs.SetCarry ((result &&& 0xFF00) ≠ 0)
  let r2 := r1.SetZero (newVal = 0)
  let r3 := r2.SetHalfCarry (((newVal &&& 0x0F) + (value &&& 0x0F)) > 0xF)
  let r4 := r3.SetSubtract false
  ({ cpu with regs := r4 }, newVal)

/-- `CPU.ADD_16` (`cpu.go`): 16-bit add through a pointer. Note the Go
source computes `uint32(*address + value)` — the sum is truncated to 16
bits *before* the widening, so the carry test `result & 0xFFFF0000` can
never fire. -/
def CPU.ADD_16 (cpu : CPU) (addrVal value : Nat) : CPU × Nat :=
  let result := (addrVal + value) % 65536
  let newVal := result &&& 0xFFFF
  let r1 := cpu.regs.SetCarry ((result &&& 0xFFFF0000) ≠ 0)
  let r2 := r1.SetZero (newVal = 0)
  let r3 := r2.SetHalfCarry (((newVal &&& 0x0F) + (value &&& 0x0F)) > 0xF)
  let r4 := r3.SetSubtract false
  ({ cpu with regs := r4 }, newVal)

/-- `CPU.ADC` (`cpu.go`): add with carry. The 16-bit intermediate sum is
tested against zero directly (`result == 0`), not its low byte. -/
def CPU.ADC (cpu : CPU) (value : Nat) : CPU :=
  let result := value + cpu.regs.a + cpu.regs.GetCarry
  let r1 := cpu.regs.SetZero (result = 0)
  let r2 := r1.SetSubtract false
  let r3 := r2.SetHalfCarry (((r2.a &&& 0x0F) + (value &&& 0x0F) + r2.GetCarry) > 0xF)
  let r4 := r3.SetCarry ((result &&& 0xFF00) ≠ 0)
  { cpu with regs := { r4 with a := result &&& 0xFF } }

/-- `CPU.SUB` (`cpu.go`). -/
def CPU.SUB (cpu : CPU) (value : Nat) : CPU :=
  let r1 := cpu.regs.SetCarry (cpu.regs.a < value)
  let r2 := r1.SetHalfCarry ((cpu.regs.a &&& 0x0F) < (value &&& 0x0F))
  let r3 := r2.SetSubtract true
  let newA := (r3.a + 256 - value % 256) % 256
  let r4 := { r3 with a := newA }
  { cpu with regs := r4.SetZero (newA = 0) }

/-- `CPU.SBC` (`cpu.go`): `newValue := value + carry` is a `uint8` sum
(wrapping), then an unsigned subtract as in `SUB`. -/
def CPU.SBC (cpu : CPU) (value : Nat) : CPU :=
  let newValue := (value + cpu.regs.GetCarry) % 256
  let r1 := cpu.regs.SetCarry (cpu.regs.a < newValue)
  let r2 := r1.SetHalfCarry ((cpu.regs.a &&& 0x0F) < (newValue &&& 0x0F))
  let r3 := r2.SetSubtract true
  let newA := (r3.a + 256 - newValue) % 256
  let r4 := { r3 with a := newA }
  { cpu with regs := r4.SetZero (newA = 0) }

/-- `CPU.AND` (`cpu.go`). -/
def CPU.AND (cpu : CPU) (value : Nat) : CPU :=
  let newA := cpu.regs.a &&& value
  let r0 := { cpu.regs with a := newA }
  let r1 := r0.SetZero (newA = 0)
  let r2 := r1.SetSubtract false
  let r3 := r2.SetHalfCarry true
  { cpu with regs := r3.SetCarry false }

/-- `CPU.OR` (`cpu.go`). -/
def CPU.OR (cpu : CPU) (value : Nat) : CPU :=
  let newA := cpu.regs.a ||| value
  let r0 := { cpu.regs with a := newA }
  let r1 := r0.SetZero (newA = 0)
  let r2 := r1.SetSubtract false
  let r3 := r2.SetHalfCarry false
  { cpu with regs := r3.SetCarry false }

/-- `CPU.XOR` (`cpu.go`). -/
def CPU.XOR (cpu : CPU) (value : Nat) : CPU :=
  let newA := cpu.regs.a ^^^ value
  let r0 := { cpu.regs with a := newA }
  let r1 := r0.SetZero (newA = 0)
  let r2 := r1.SetSubtract false
  let r3 := r2.SetHalfCarry false
  { cpu with regs := r3.SetCarry false }

/-- `CPU.CP` (`cpu.go`): compare without touching the accumulator. -/
def CPU.CP (cpu : CPU) (value : Nat) : CPU :=
  let r1 := cpu.regs.SetZero (cpu.regs.a = value)
  let r2 := r1.SetCarry (cpu.regs.a < value)
  let r3 := r2.SetHalfCarry ((cpu.regs.a &&& 0x0F) < (value &&& 0x0F))
  { cpu with regs := r3.SetSubtract true }

/-- `CPU.INC` (`cpu.go`): returns the incremented value (with `uint8`
wrap) alongside the flag-updated CPU; the carry flag is untouched. -/
def CPU.INC (cpu : CPU) (value : Nat) : CPU × Nat :=
  let r1 := cpu.regs.SetHalfCarry ((value &&& 0x0F) = 0x0F)
  let r2 := r1.SetSubtract false
  let newVal := (value + 1) % 256
  let r3 := r2.SetZero (newVal = 0)
  ({ cpu with regs := r3 }, newVal)

/-- `CPU.DEC` (`cpu.go`): returns the decremented value (with `uint8`
wrap) alongside the flag-updated CPU; the carry flag is untouched. -/
def CPU.DEC (cpu : CPU) (value : Nat) : CPU × Nat :=
  let r1 := cpu.regs.SetHalfCarry ((value &&& 0x0F) = 0)
  let r2 := r1.SetSubtract true
  let newVal := (value + 255) % 256
  let r3 := r2.SetZero (newVal = 0)
  ({ cpu with regs := r3 }, newVal)

/-! ## Instruction execute functions (`cpu.go`, opcodes 0x00–0x3F)

Each Go method `func (cpu *CPU) NAME(stepInfo *OperandInfo)` becomes
`NAME : OperandInfo → CPU → Option CPU`; `none` is a runtime panic raised
by a bounds-checked memory access inside the effect. -/

/-- Opcode 0x00, `NOP`. -/
def NOP (_stepInfo : OperandInfo) (cpu : CPU) : Option CPU :=
  some cpu

/-- Opcode 0x01, `LD BC, d16`. -/
def LD_BC_d16 (stepInfo : OperandInfo) (cpu : CPU) : Option CPU :=
  some { cpu with regs := cpu.regs.SetBC stepInfo.operand16 }

/-- Opcode 0x02, `LD (BC), A`. -/
def LD_BC_A (_stepInfo : OperandInfo) (cpu : CPU) : Option CPU :=
  match cpu.mem.Write8 cpu.regs.GetBC cpu.regs.a with
  | some m => some { cpu with mem := m }
  | none => none

/-- Opcode 0x03, `INC BC` (16-bit wrap, no flags). -/
def INC_BC (_stepInfo : OperandInfo) (cpu : CPU) : Option CPU :=
  some { cpu with regs := cpu.regs.SetBC ((cpu.regs.GetBC + 1) % 65536) }

/-- Opcode 0x04, `INC B`. -/
def INC_B (_stepInfo : OperandInfo) (cpu : CPU) : Option CPU :=
  let p := cpu.INC cpu.regs.b
  some { p.1 with regs := { p.1.regs with b := p.2 } }

/-- Opcode 0x05, `DEC B`. -/
def DEC_B (_stepInfo : OperandInfo) (cpu : CPU) : Option CPU :=
  let p := cpu.DEC cpu.regs.b
  some { p.1 with regs := { p.1.regs with b := p.2 } }

/-- Opcode 0x06, `LD B, d8`. -/
def LD_B_d8 (stepInfo : OperandInfo) (cpu : CPU) : Option CPU :=
  some { cpu with regs := { cpu.regs with b := stepInfo.operand8 } }

/-- Opcode 0x07, `RLCA`: the rotated accumulator is stored first, and the
carry test then reads bit 0 of the *new* value. -/
def RLCA (_stepInfo : OperandInfo) (cpu : CPU) : Option CPU :=
  let newA := ((cpu.regs.a <<< 1) &&& 0xFF) ||| (cpu.regs.a >>> 7)
  let r0 := { cpu.regs with a := newA }
  let r1 := r0.SetZero false
  let r2 := r1.SetSubtract false
  let r3 := r2.SetHalfCarry false
  some { cpu with regs := r3.SetCarry ((newA &&& 0x01) ≠ 0) }

/-- Opcode 0x08, `LD (a16), SP`: delegates to the no-op `Write16`. -/
def LD_a16_SP (stepInfo : OperandInfo) (cpu : CPU) : Option CPU :=
  some { cpu with mem := cpu.mem.Write16 stepInfo.operand16 cpu.regs.sp }

/-- Opcode 0x09, `ADD HL, BC`: the body is entirely commented out. -/
def ADD_HL_BC (_stepInfo : OperandInfo) (cpu : CPU) : Option CPU :=
  some cpu

/-- Opcode 0x0A, `LD A, (BC)`. -/
def LD_A_BC (_stepInfo : OperandInfo) (cpu : CPU) : Option CPU :=
  match cpu.mem.Read8 cpu.regs.GetBC with
  | .ok v => some { cpu with regs := { cpu.regs with a := v } }
  | _ => none

/-- Opcode 0x0B, `DEC BC` (16-bit wrap, no flags). -/
def DEC_BC (_stepInfo : OperandInfo) (cpu : CPU) : Option CPU :=
  some { cpu with regs := cpu.regs.SetBC ((cpu.regs.GetBC + 65535) % 65536) }

/-- Opcode 0x0C, `INC C`. -/
def INC_C (_stepInfo : OperandInfo) (cpu : CPU) : Option CPU :=
  let p := cpu.INC cpu.regs.c
  some { p.1 with regs := { p.1.regs with c := p.2 } }

/-- Opcode 0x0D, `DEC C`. -/
def DEC_C (_stepInfo : OperandInfo) (cpu : CPU) : Option CPU :=
  let p := cpu.DEC cpu.regs.c
  some { p.1 with regs := { p.1.regs with c := p.2 } }

/-- Opcode 0x0E, `LD C, d8`. -/
def LD_C_d8 (stepInfo : OperandInfo) (cpu : CPU) : Option CPU :=
  some { cpu with regs := { cpu.regs with c := stepInfo.operand8 } }

/-- Opcode 0x0F, `RRCA`: carry is taken from bit 0 of the *old* value,
then the accumulator is rotated right. -/
def RRCA (_stepInfo : OperandInfo) (cpu : CPU) : Option CPU :=
  let r1 := cpu.regs.SetCarry ((cpu.regs.a &&& 0x01) ≠ 0)
  let newA := (r1.a >>> 1) ||| ((r1.a <<< 7) &&& 0xFF)
  let r2 := { r1 with a := newA }
  let r3 := r2.SetZero false
  let r4 := r3.SetSubtract false
  some { cpu with regs := r4.SetHalfCarry false }

/-- Opcode 0x10, `STOP`: sets the CPU's `stopped` field. -/
def STOP (_stepInfo : OperandInfo) (cpu : CPU) : Option CPU :=
  some { cpu with stopped := true }

/-- Opcode 0x11, `LD DE, d16`. -/
def LD_DE_d16 (stepInfo : OperandInfo) (cpu : CPU) : Option CPU :=
  some { cpu with regs := cpu.regs.SetDE stepInfo.operand16 }

/-- Opcode 0x12, `LD (DE), A`. -/
def LD_DE_A (_stepInfo : OperandInfo) (cpu : CPU) : Option CPU :=
  match cpu.mem.Write8 cpu.regs.GetDE cpu.regs.a with
  | some m => some { cpu with mem := m }
  | none => none

/-- Opcode 0x13, `INC DE`. -/
def INC_DE (_stepInfo : OperandInfo) (cpu : CPU) : Option CPU :=
  some { cpu with regs := cpu.regs.SetDE ((cpu.regs.GetDE + 1) % 65536) }

/-- Opcode 0x14, `INC D`. -/
def INC_D (_stepInfo : OperandInfo) (cpu : CPU) : Option CPU :=
  let p := cpu.INC cpu.regs.d
  some { p.1 with regs := { p.1.regs with d := p.2 } }

/-- Opcode 0x15, `DEC D`. -/
def DEC_D (_stepInfo : OperandInfo) (cpu : CPU) : Option CPU :=
  let p := cpu.DEC cpu.regs.d
  some { p.1 with regs := { p.1.regs with d := p.2 } }

/-- Opcode 0x16, `LD D, d8`. -/
def LD_D_d8 (stepInfo : OperandInfo) (cpu : CPU) : Option CPU :=
  some { cpu with regs := { cpu.regs with d := stepInfo.operand8 } }

/-- Opcode 0x17, `RLA`: carry from bit 7 of the old value, then the same
rotate as `RLCA` (as written in the source). -/
def RLA (_stepInfo : OperandInfo) (cpu : CPU) : Option CPU :=
  let r1 := cpu.regs.SetCarry ((cpu.regs.a &&& 0x80) ≠ 0)
  let newA := ((r1.a <<< 1) &&& 0xFF) ||| (r1.a >>> 7)
  let r2 := { r1 with a := newA }
  let r3 := r2.SetZero false
  let r4 := r3.SetSubtract false
  some { cpu with regs := r4.SetHalfCarry false }

/-- Opcode 0x18, `JR r8`: adds the zero-extended operand byte to `PC`. -/
def JR_r8 (stepInfo : OperandInfo) (cpu : CPU) : Option CPU :=
  some { cpu with regs :=
    { cpu.regs with pc := (cpu.regs.pc + stepInfo.operand8) % 65536 } }

/-- Opcode 0x19, `ADD HL, DE`: the body is entirely commented out. -/
def ADD_HL_DE (_stepInfo : OperandInfo) (cpu : CPU) : Option CPU :=
  some cpu

/-- Opcode 0x1A, `LD A, (DE)`. -/
def LD_A_DE (_stepInfo : OperandInfo) (cpu : CPU) : Option CPU :=
  match cpu.mem.Read8 cpu.regs.GetDE with
  | .ok v => some { cpu with regs := { cpu.regs with a := v } }
  | _ => none

/-- Opcode 0x1B, `DEC DE`. -/
def DEC_DE (_stepInfo : OperandInfo) (cpu : CPU) : Option CPU :=
  some { cpu with regs := cpu.regs.SetDE ((cpu.regs.GetDE + 65535) % 65536) }

/-- Opcode 0x1C, `INC E`. -/
def INC_E (_stepInfo : OperandInfo) (cpu : CPU) : Option CPU :=
  let p := cpu.INC cpu.regs.e
  some { p.1 with regs := { p.1.regs with e := p.2 } }

/-- Opcode 0x1D, `DEC E`. -/
def DEC_E (_stepInfo : OperandInfo) (cpu : CPU) : Option CPU :=
  let p := cpu.DEC cpu.regs.e
  some { p.1 with regs := { p.1.regs with e := p.2 } }

/-- Opcode 0x1E, `LD E, d8`. -/
def LD_E_d8 (stepInfo : OperandInfo) (cpu : CPU) : Option CPU :=
  some { cpu with regs := { cpu.regs with e := stepInfo.operand8 } }

/-- Opcode 0x1F, `RRA`: the body is only a TODO comment. -/
def RRA (_stepInfo : OperandInfo) (cpu : CPU) : Option CPU :=
  some cpu

/-- Opcode 0x20, `JR NZ, r8`. -/
def JR_NZ_r8 (stepInfo : OperandInfo) (cpu : CPU) : Option CPU :=
  if cpu.regs.GetZero = 0 then
    some { cpu with regs :=
      { cpu.regs with pc := (cpu.regs.pc + stepInfo.operand8) % 65536 } }
  else
    some cpu

/-- Opcode 0x21, `LD HL, d16`. -/
def LD_HL_d16 (stepInfo : OperandInfo) (cpu : CPU) : Option CPU :=
  some { cpu with regs := cpu.regs.SetHL stepInfo.operand16 }

/-- Opcode 0x22, `LD (HL+), A`. -/
def LDi_HLp_A (_stepInfo : OperandInfo) (cpu : CPU) : Option CPU :=
  match cpu.mem.Write8 cpu.regs.GetHL cpu.regs.a with
  | some m =>
      let cpu1 := { cpu with mem := m }
      some { cpu1 with regs := cpu1.regs.SetHL ((cpu1.regs.GetHL + 1) % 65536) }
  | none => none

/-- Opcode 0x23, `INC HL`. -/
def INC_HL (_stepInfo : OperandInfo) (cpu : CPU) : Option CPU :=
  some { cpu with regs := cpu.regs.SetHL ((cpu.regs.GetHL + 1) % 65536) }

/-- Opcode 0x24, `INC H`. -/
def INC_H (_stepInfo : OperandInfo) (cpu : CPU) : Option CPU :=
  let p := cpu.INC cpu.regs.h
  some { p.1 with regs := { p.1.regs with h := p.2 } }

/-- Opcode 0x25, `DEC H`. -/
def DEC_H (_stepInfo : OperandInfo) (cpu : CPU) : Option CPU :=
  let p := cpu.DEC cpu.regs.h
  some { p.1 with regs := { p.1.regs with h := p.2 } }

/-- Opcode 0x26, `LD H, d8`. -/
def LD_H_d8 (stepInfo : OperandInfo) (cpu : CPU) : Option CPU :=
  some { cpu with regs := { cpu.regs with h := stepInfo.operand8 } }

/-- Opcode 0x27, `DAA`: the body is only a TODO comment. -/
def DAA (_stepInfo : OperandInfo) (cpu : CPU) : Option CPU :=
  some cpu

/-- Opcode 0x28, `JR Z, r8`: the body is empty. -/
def JR_Z_r8 (_stepInfo : OperandInfo) (cpu : CPU) : Option CPU :=
  some cpu

/-- Opcode 0x29, `ADD HL, HL`: the body is empty. -/
def ADD_HL_HL (_stepInfo : OperandInfo) (cpu : CPU) : Option CPU :=
  some cpu

/-- Opcode 0x2A, `LD A, (HL+)`. -/
def LDi_A_HLp (_stepInfo : OperandInfo) (cpu : CPU) : Option CPU :=
  match cpu.mem.Read8 cpu.regs.GetHL with
  | .ok v =>
      let cpu1 := { cpu with regs := { cpu.regs with a := v } }
      some { cpu1 with regs := cpu1.regs.SetHL ((cpu1.regs.GetHL + 1) % 65536) }
  | _ => none

/-- Opcode 0x2B, `DEC HL`. -/
def DEC_HL (_stepInfo : OperandInfo) (cpu : CPU) : Option CPU :=
  some { cpu with regs := cpu.regs.SetHL ((cpu.regs.GetHL + 65535) % 65536) }

/-- Opcode 0x2C, `INC L`. -/
def INC_L (_stepInfo : OperandInfo) (cpu : CPU) : Option CPU :=
  let p := cpu.INC cpu.regs.l
  some { p.1 with regs := { p.1.regs with l := p.2 } }

/-- Opcode 0x2D, `DEC L`. -/
def DEC_L (_stepInfo : OperandInfo) (cpu : CPU) : Option CPU :=
  let p := cpu.DEC cpu.regs.l
  some { p.1 with regs := { p.1.regs with l := p.2 } }

/-- Opcode 0x2E, `LD L, d8`. -/
def LD_L_d8 (stepInfo : OperandInfo) (cpu : CPU) : Option CPU :=
  some { cpu with regs := { cpu.regs with l := stepInfo.operand8 } }

/-- Opcode 0x2F, `CPL`: the body is only a TODO comment. -/
def CPL (_stepInfo : OperandInfo) (cpu : CPU) : Option CPU :=
  some cpu

/-- Opcode 0x30, `JR NC, r8`: the body is only a TODO comment. -/
def JR_NC_r8 (_stepInfo : OperandInfo) (cpu : CPU) : Option CPU :=
  some cpu

/-- Opcode 0x31, `LD SP, d16`. -/
def LD_SP_d16 (stepInfo : OperandInfo) (cpu : CPU) : Option CPU :=
  some { cpu with regs := { cpu.regs with sp := stepInfo.operand16 } }

/-- Opcode 0x32, `LD (HL-), A`. -/
def LD_HLm_A (_stepInfo : OperandInfo) (cpu : CPU) : Option CPU :=
  match cpu.mem.Write8 cpu.regs.GetHL cpu.regs.a with
  | some m =>
      let cpu1 := { cpu with mem := m }
      some { cpu1 with regs := cpu1.regs.SetHL ((cpu1.regs.GetHL + 65535) % 65536) }
  | none => none

/-- Opcode 0x33, `INC SP`. -/
def INC_SP (_stepInfo : OperandInfo) (cpu : CPU) : Option CPU :=
  some { cpu with regs := { cpu.regs with sp := (cpu.regs.sp + 1) % 65536 } }

/-- Opcode 0x34, `INC (HL+)`: read the byte at `HL`, increment it through
the flag-setting `INC` helper, write it back. -/
def INC_HLp (_stepInfo : OperandInfo) (cpu : CPU) : Option CPU :=
  match cpu.mem.Read8 cpu.regs.GetHL with
  | .ok v =>
      let p := cpu.INC v
      match p.1.mem.Write8 p.1.regs.GetHL p.2 with
      | some m => some { p.1 with mem := m }
      | none => none
  | _ => none

/-- Opcode 0x35, `DEC (HL+)`. -/
def DEC_HLp (_stepInfo : OperandInfo) (cpu : CPU) : Option CPU :=
  match cpu.mem.Read8 cpu.regs.GetHL with
  | .ok v =>
      let p := cpu.DEC v
      match p.1.mem.Write8 p.1.regs.GetHL p.2 with
      | some m => some { p.1 with mem := m }
      | none => none
  | _ => none

/-- Opcode 0x36, `LD (HL+), d8`. -/
def LD_HLp_d8 (stepInfo : OperandInfo) (cpu : CPU) : Option CPU :=
  match cpu.mem.Write8 cpu.regs.GetHL stepInfo.operand8 with
  | some m => some { cpu with mem := m }
  | none => none

/-- Opcode 0x37, `SCF`: sets carry, clears zero and half-carry, leaves
subtract untouched. -/
def SCF (_stepInfo : OperandInfo) (cpu : CPU) : Option CPU :=
  let r1 := cpu.regs.SetCarry true
  let r2 := r1.SetZero false
  some { cpu with regs := r2.SetHalfCarry false }

/-- Opcode 0x38, `JR C, r8`: the body is only a TODO comment. -/
def JR_C_r8 (_stepInfo : OperandInfo) (cpu : CPU) : Option CPU :=
  some cpu

/-- Opcode 0x39, `ADD HL, SP`: the body is only a TODO comment. -/
def ADD_HL_SP (_stepInfo : OperandInfo) (cpu : CPU) : Option CPU :=
  some cpu

/-- Opcode 0x3A, `LD A, (HL-)`. -/
def LD_A_HLm (_stepInfo : OperandInfo) (cpu : CPU) : Option CPU :=
  match cpu.mem.Read8 cpu.regs.GetHL with
  | .ok v =>
      let cpu1 := { cpu with regs := { cpu.regs with a := v } }
      some { cpu1 with regs := cpu1.regs.SetHL ((cpu1.regs.GetHL + 65535) % 65536) }
  | _ => none

/-- Opcode 0x3B, `DEC SP`. -/
def DEC_SP (_stepInfo : OperandInfo) (cpu : CPU) : Option CPU :=
  some { cpu with regs := { cpu.regs with sp := (cpu.regs.sp + 65535) % 65536 } }

/-- Opcode 0x3C, `INC A`. -/
def INC_A (_stepInfo : OperandInfo) (cpu : CPU) : Option CPU :=
  let p := cpu.INC cpu.regs.a
  some { p.1 with regs := { p.1.regs with a := p.2 } }

/-- Opcode 0x3D, `DEC A`. -/
def DEC_A (_stepInfo : OperandInfo) (cpu : CPU) : Option CPU :=
  let p := cpu.DEC cpu.regs.a
  some { p.1 with regs := { p.1.regs with a := p.2 } }

/-- Opcode 0x3E, `LD A, d8`. -/
def LD_A_d8 (stepInfo : OperandInfo) (cpu : CPU) : Option CPU :=
  some { cpu with regs := { cpu.regs with a := stepInfo.operand8 } }

/-- Opcode 0x3F, `CCF`: the body is only a TODO comment. -/
def CCF (_stepInfo : OperandInfo) (cpu : CPU) : Option CPU :=
  some cpu

/-! ## Instruction execute functions (opcodes 0x40-0x7F: 8-bit register moves) -/

/-- Opcode 0x40, `LD B, B`. (a register self-move: the body is a no-op). -/
def LD_B_B (_stepInfo : OperandInfo) (cpu : CPU) : Option CPU :=
  some cpu

/-- Opcode 0x41, `LD B, C`. -/
def LD_B_C (_stepInfo : OperandInfo) (cpu : CPU) : Option CPU :=
  some { cpu with regs := { cpu.regs with b := cpu.regs.c } }

/-- Opcode 0x42, `LD B, D`. -/
def LD_B_D (_stepInfo : OperandInfo) (cpu : CPU) : Option CPU :=
  some { cpu with regs := { cpu.regs with b := cpu.regs.d } }

/-- Opcode 0x43, `LD B, E`. -/
def LD_B_E (_stepInfo : OperandInfo) (cpu : CPU) : Option CPU :=
  some { cpu with regs := { cpu.regs with b := cpu.regs.e } }

/-- Opcode 0x44, `LD B, H`. -/
def LD_B_H (_stepInfo : OperandInfo) (cpu : CPU) : Option CPU :=
  some { cpu with regs := { cpu.regs with b := cpu.regs.h } }

/-- Opcode 0x45, `LD B, L`. -/
def LD_B_L (_stepInfo : OperandInfo) (cpu : CPU) : Option CPU :=
  some { cpu with regs := { cpu.regs with b := cpu.regs.l } }

/-- Opcode 0x46, `LD B, (HL+)`. -/
def LD_B_HLp (_stepInfo : OperandInfo) (cpu : CPU) : Option CPU :=
  match cpu.mem.Read8 cpu.regs.GetHL with
  | .ok v => some { cpu with regs := { cpu.regs with b := v } }
  | _ => none

/-- Opcode 0x47, `LD B, A`. -/
def LD_B_A (_stepInfo : OperandInfo) (cpu : CPU) : Option CPU :=
  some { cpu with regs := { cpu.regs with b := cpu.regs.a } }

/-- Opcode 0x48, `LD C, B`. -/
def LD_C_B (_stepInfo : OperandInfo) (cpu : CPU) : Option CPU :=
  some { cpu with regs := { cpu.regs with c := cpu.regs.b } }

/-- Opcode 0x49, `LD C, C`. (a register self-move: the body is a no-op). -/
def LD_C_C (_stepInfo : OperandInfo) (cpu : CPU) : Option CPU :=
  some cpu

/-- Opcode 0x4A, `LD C, D`. -/
def LD_C_D (_stepInfo : OperandInfo) (cpu : CPU) : Option CPU :=
  some { cpu with regs := { cpu.regs with c := cpu.regs.d } }

/-- Opcode 0x4B, `LD C, E`. -/
def LD_C_E (_stepInfo : OperandInfo) (cpu : CPU) : Option CPU :=
  some { cpu with regs := { cpu.regs with c := cpu.regs.e } }

/-- Opcode 0x4C, `LD C, H`. -/
def LD_C_H (_stepInfo : OperandInfo) (cpu : CPU) : Option CPU :=
  some { cpu with regs := { cpu.regs with c := cpu.regs.h } }

/-- Opcode 0x4D, `LD C, L`. -/
def LD_C_L (_stepInfo : OperandInfo) (cpu : CPU) : Option CPU :=
  some { cpu with regs := { cpu.regs with c := cpu.regs.l } }

/-- Opcode 0x4E, `LD C, (HL+)`. -/
def LD_C_HLp (_stepInfo : OperandInfo) (cpu : CPU) : Option CPU :=
  match cpu.mem.Read8 cpu.regs.GetHL with
  | .ok v => some { cpu with regs := { cpu.regs with c := v } }
  | _ => none

/-- Opcode 0x4F, `LD C, A`. -/
def LD_C_A (_stepInfo : OperandInfo) (cpu : CPU) : Option CPU :=
  some { cpu with regs := { cpu.regs with c := cpu.regs.a } }

/-- Opcode 0x50, `LD D, B`. -/
def LD_D_B (_stepInfo : OperandInfo) (cpu : CPU) : Option CPU :=
  some { cpu with regs := { cpu.regs with d := cpu.regs.b } }

/-- Opcode 0x51, `LD D, C`. -/
def LD_D_C (_stepInfo : OperandInfo) (cpu : CPU) : Option CPU :=
  some { cpu with regs := { cpu.regs with d := cpu.regs.c } }

/-- Opcode 0x52, `LD D, D`. (a register self-move: the body is a no-op). -/
def LD_D_D (_stepInfo : OperandInfo) (cpu : CPU) : Option CPU :=
  some cpu

/-- Opcode 0x53, `LD D, E`. -/
def LD_D_E (_stepInfo : OperandInfo) (cpu : CPU) : Option CPU :=
  some { cpu with regs := { cpu.regs with d := cpu.regs.e } }

/-- Opcode 0x54, `LD D, H`. -/
def LD_D_H (_stepInfo : OperandInfo) (cpu : CPU) : Option CPU :=
  some { cpu with regs := { cpu.regs with d := cpu.regs.h } }

/-- Opcode 0x55, `LD D, L`. -/
def LD_D_L (_stepInfo : OperandInfo) (cpu : CPU) : Option CPU :=
  some { cpu with regs := { cpu.regs with d := cpu.regs.l } }

/-- Opcode 0x56, `LD D, (HL+)`. -/
def LD_D_HLp (_stepInfo : OperandInfo) (cpu : CPU) : Option CPU :=
  match cpu.mem.Read8 cpu.regs.GetHL with
  | .ok v => some { cpu with regs := { cpu.regs with d := v } }
  | _ => none

/-- Opcode 0x57, `LD D, A`. -/
def LD_D_A (_stepInfo : OperandInfo) (cpu : CPU) : Option CPU :=
  some { cpu with regs := { cpu.regs with d := cpu.regs.a } }

/-- Opcode 0x58, `LD E, B`. -/
def LD_E_B (_stepInfo : OperandInfo) (cpu : CPU) : Option CPU :=
  some { cpu with regs := { cpu.regs with e := cpu.regs.b } }

/-- Opcode 0x59, `LD E, C`. -/
def LD_E_C (_stepInfo : OperandInfo) (cpu : CPU) : Option CPU :=
  some { cpu with regs := { cpu.regs with e := cpu.regs.c } }

/-- Opcode 0x5A, `LD E, D`. -/
def LD_E_D (_stepInfo : OperandInfo) (cpu : CPU) : Option CPU :=
  some { cpu with regs := { cpu.regs with e := cpu.regs.d } }

/-- Opcode 0x5B, `LD E, E`. (a register self-move: the body is a no-op). -/
def LD_E_E (_stepInfo : OperandInfo) (cpu : CPU) : Option CPU :=
  some cpu

/-- Opcode 0x5C, `LD E, H`. -/
def LD_E_H (_stepInfo : OperandInfo) (cpu : CPU) : Option CPU :=
  some { cpu with regs := { cpu.regs with e := cpu.regs.h } }

/-- Opcode 0x5D, `LD E, L`. -/
def LD_E_L (_stepInfo : OperandInfo) (cpu : CPU) : Option CPU :=
  some { cpu with regs := { cpu.regs with e := cpu.regs.l } }

/-- Opcode 0x5E, `LD E, (HL+)`. -/
def LD_E_HLp (_stepInfo : OperandInfo) (cpu : CPU) : Option CPU :=
  match cpu.mem.Read8 cpu.regs.GetHL with
  | .ok v => some { cpu with regs := { cpu.regs with e := v } }
  | _ => none

/-- Opcode 0x5F, `LD E, A`. -/
def LD_E_A (_stepInfo : OperandInfo) (cpu : CPU) : Option CPU :=
  some { cpu with regs := { cpu.regs with e := cpu.regs.a } }

/-- Opcode 0x60, `LD H, B`. -/
def LD_H_B (_stepInfo : OperandInfo) (cpu : CPU) : Option CPU :=
  some { cpu with regs := { cpu.regs with h := cpu.regs.b } }

/-- Opcode 0x61, `LD H, C`. -/
def LD_H_C (_stepInfo : OperandInfo) (cpu : CPU) : Option CPU :=
  some { cpu with regs := { cpu.regs with h := cpu.regs.c } }

/-- Opcode 0x62, `LD H, D`. -/
def LD_H_D (_stepInfo : OperandInfo) (cpu : CPU) : Option CPU :=
  some { cpu with regs := { cpu.regs with h := cpu.regs.d } }

/-- Opcode 0x63, `LD H, E`. -/
def LD_H_E (_stepInfo : OperandInfo) (cpu : CPU) : Option CPU :=
  some { cpu with regs := { cpu.regs with h := cpu.regs.e } }

/-- Opcode 0x64, `LD H, H`. (a register self-move: the body is a no-op). -/
def LD_H_H (_stepInfo : OperandInfo) (cpu : CPU) : Option CPU :=
  some cpu

/-- Opcode 0x65, `LD H, L`. -/
def LD_H_L (_stepInfo : OperandInfo) (cpu : CPU) : Option CPU :=
  some { cpu with regs := { cpu.regs with h := cpu.regs.l } }

/-- Opcode 0x66, `LD H, (HL+)`. -/
def LD_H_HLp (_stepInfo : OperandInfo) (cpu : CPU) : Option CPU :=
  match cpu.mem.Read8 cpu.regs.GetHL with
  | .ok v => some { cpu with regs := { cpu.regs with h := v } }
  | _ => none

/-- Opcode 0x67, `LD H, A`. -/
def LD_H_A (_stepInfo : OperandInfo) (cpu : CPU) : Option CPU :=
  some { cpu with regs := { cpu.regs with h := cpu.regs.a } }

/-- Opcode 0x68, `LD L, B`. -/
def LD_L_B (_stepInfo : OperandInfo) (cpu : CPU) : Option CPU :=
  some { cpu with regs := { cpu.regs with l := cpu.regs.b } }

/-- Opcode 0x69, `LD L, C`. -/
def LD_L_C (_stepInfo : OperandInfo) (cpu : CPU) : Option CPU :=
  some { cpu with regs := { cpu.regs with l := cpu.regs.c } }

/-- Opcode 0x6A, `LD L, D`. -/
def LD_L_D (_stepInfo : OperandInfo) (cpu : CPU) : Option CPU :=
  some { cpu with regs := { cpu.regs with l := cpu.regs.d } }

/-- Opcode 0x6B, `LD L, E`. -/
def LD_L_E (_stepInfo : OperandInfo) (cpu : CPU) : Option CPU :=
  some { cpu with regs := { cpu.regs with l := cpu.regs.e } }

/-- Opcode 0x6C, `LD L, H`. -/
def LD_L_H (_stepInfo : OperandInfo) (cpu : CPU) : Option CPU :=
  some { cpu with regs := { cpu.regs with l := cpu.regs.h } }

/-- Opcode 0x6D, `LD L, L`. (a register self-move: the body is a no-op). -/
def LD_L_L (_stepInfo : OperandInfo) (cpu : CPU) : Option CPU :=
  some cpu

/-- Opcode 0x6E, `LD L, (HL+)`. -/
def LD_L_HLp (_stepInfo : OperandInfo) (cpu : CPU) : Option CPU :=
  match cpu.mem.Read8 cpu.regs.GetHL with
  | .ok v => some { cpu with regs := { cpu.regs with l := v } }
  | _ => none

/-- Opcode 0x6F, `LD L, A`. -/
def LD_L_A (_stepInfo : OperandInfo) (cpu : CPU) : Option CPU :=
  some { cpu with regs := { cpu.regs with l := cpu.regs.a } }

/-- Opcode 0x70, `LD (HL), B`. -/
def LD_HLp_B (_stepInfo : OperandInfo) (cpu : CPU) : Option CPU :=
  match cpu.mem.Write8 cpu.regs.GetHL cpu.regs.b with
  | some m => some { cpu with mem := m }
  | none => none

/-- Opcode 0x71, `LD (HL), C`. -/
def LD_HLp_C (_stepInfo : OperandInfo) (cpu : CPU) : Option CPU :=
  match cpu.mem.Write8 cpu.regs.GetHL cpu.regs.c with
  | some m => some { cpu with mem := m }
  | none => none

/-- Opcode 0x72, `LD (HL), D`. -/
def LD_HLp_D (_stepInfo : OperandInfo) (cpu : CPU) : Option CPU :=
  match cpu.mem.Write8 cpu.regs.GetHL cpu.regs.d with
  | some m => some { cpu with mem := m }
  | none => none

/-- Opcode 0x73, `LD (HL), E`. -/
def LD_HLp_E (_stepInfo : OperandInfo) (cpu : CPU) : Option CPU :=
  match cpu.mem.Write8 cpu.regs.GetHL cpu.regs.e with
  | some m => some { cpu with mem := m }
  | none => none

/-- Opcode 0x74, `LD (HL), H`. -/
def LD_HLp_H (_stepInfo : OperandInfo) (cpu : CPU) : Option CPU :=
  match cpu.mem.Write8 cpu.regs.GetHL cpu.regs.h with
  | some m => some { cpu with mem := m }
  | none => none

/-- Opcode 0x75, `LD (HL), L`. -/
def LD_HLp_L (_stepInfo : OperandInfo) (cpu : CPU) : Option CPU :=
  match cpu.mem.Write8 cpu.regs.GetHL cpu.regs.l with
  | some m => some { cpu with mem := m }
  | none => none

/-- Opcode 0x76, `HALT`: the body is only TODO comments. -/
def HALT (_stepInfo : OperandInfo) (cpu : CPU) : Option CPU :=
  some cpu

/-- Opcode 0x77, `LD (HL), A`. -/
def LD_HL_A (_stepInfo : OperandInfo) (cpu : CPU) : Option CPU :=
  match cpu.mem.Write8 cpu.regs.GetHL cpu.regs.a with
  | some m => some { cpu with mem := m }
  | none => none

/-- Opcode 0x78, `LD A, B`. -/
def LD_A_B (_stepInfo : OperandInfo) (cpu : CPU) : Option CPU :=
  some { cpu with regs := { cpu.regs with a := cpu.regs.b } }

/-- Opcode 0x79, `LD A, C`. -/
def LD_A_C (_stepInfo : OperandInfo) (cpu : CPU) : Option CPU :=
  some { cpu with regs := { cpu.regs with a := cpu.regs.c } }

/-- Opcode 0x7A, `LD A, D`. -/
def LD_A_D (_stepInfo : OperandInfo) (cpu : CPU) : Option CPU :=
  some { cpu with regs := { cpu.regs with a := cpu.regs.d } }

/-- Opcode 0x7B, `LD A, E`. -/
def LD_A_E (_stepInfo : OperandInfo) (cpu : CPU) : Option CPU :=
  some { cpu with regs := { cpu.regs with a := cpu.regs.e } }

/-- Opcode 0x7C, `LD A, H`. -/
def LD_A_H (_stepInfo : OperandInfo) (cpu : CPU) : Option CPU :=
  some { cpu with regs := { cpu.regs with a := cpu.regs.h } }

/-- Opcode 0x7D, `LD A, L`. -/
def LD_A_L (_stepInfo : OperandInfo) (cpu : CPU) : Option CPU :=
  some { cpu with regs := { cpu.regs with a := cpu.regs.l } }

/-- Opcode 0x7E, `LD A, (HL+)`. -/
def LD_A_HLp (_stepInfo : OperandInfo) (cpu : CPU) : Option CPU :=
  match cpu.mem.Read8 cpu.regs.GetHL with
  | .ok v => some { cpu with regs := { cpu.regs with a := v } }
  | _ => none

/-- Opcode 0x7F, `LD A, A`. (a register self-move: the body is a no-op). -/
def LD_A_A (_stepInfo : OperandInfo) (cpu : CPU) : Option CPU :=
  some cpu

/-! ## Instruction execute functions (opcodes 0x80-0xBF: 8-bit ALU) -/

/-- Opcode 0x80, `ADD A, B`. -/
def ADD_A_B (_stepInfo : OperandInfo) (cpu : CPU) : Option CPU :=
  let p := cpu.ADD cpu.regs.a cpu.regs.b
  some { p.1 with regs := { p.1.regs with a := p.2 } }

/-- Opcode 0x81, `ADD A, C`. -/
def ADD_A_C (_stepInfo : OperandInfo) (cpu : CPU) : Option CPU :=
  let p := cpu.ADD cpu.regs.a cpu.regs.c
  some { p.1 with regs := { p.1.regs with a := p.2 } }

/-- Opcode 0x82, `ADD A, D`. -/
def ADD_A_D (_stepInfo : OperandInfo) (cpu : CPU) : Option CPU :=
  let p := cpu.ADD cpu.regs.a cpu.regs.d
  some { p.1 with regs := { p.1.regs with a := p.2 } }

/-- Opcode 0x83, `ADD A, E`. -/
def ADD_A_E (_stepInfo : OperandInfo) (cpu : CPU) : Option CPU :=
  let p := cpu.ADD cpu.regs.a cpu.regs.e
  some { p.1 with regs := { p.1.regs with a := p.2 } }

/-- Opcode 0x84, `ADD A, H`. -/
def ADD_A_H (_stepInfo : OperandInfo) (cpu : CPU) : Option CPU :=
  let p := cpu.ADD cpu.regs.a cpu.regs.h
  some { p.1 with regs := { p.1.regs with a := p.2 } }

/-- Opcode 0x85, `ADD A, L`. -/
def ADD_A_L (_stepInfo : OperandInfo) (cpu : CPU) : Option CPU :=
  let p := cpu.ADD cpu.regs.a cpu.regs.l
  some { p.1 with regs := { p.1.regs with a := p.2 } }

/-- Opcode 0x86, `ADD A, (HL+)`. -/
def ADD_A_HL (_stepInfo : OperandInfo) (cpu : CPU) : Option CPU :=
  match cpu.mem.Read8 cpu.regs.GetHL with
  | .ok v =>
      let p := cpu.ADD cpu.regs.a v
      some { p.1 with regs := { p.1.regs with a := p.2 } }
  | _ => none

/-- Opcode 0x87, `ADD A, A`. -/
def ADD_A_A (_stepInfo : OperandInfo) (cpu : CPU) : Option CPU :=
  let p := cpu.ADD cpu.regs.a cpu.regs.a
  some { p.1 with regs := { p.1.regs with a := p.2 } }

/-- Opcode 0x88, `ADC A, B`. -/
def ADC_A_B (_stepInfo : OperandInfo) (cpu : CPU) : Option CPU :=
  some (cpu.ADC cpu.regs.b)

/-- Opcode 0x89, `ADC A, C`. -/
def ADC_A_C (_stepInfo : OperandInfo) (cpu : CPU) : Option CPU :=
  some (cpu.ADC cpu.regs.c)

/-- Opcode 0x8A, `ADC A, D`. -/
def ADC_A_D (_stepInfo : OperandInfo) (cpu : CPU) : Option CPU :=
  some (cpu.ADC cpu.regs.d)

/-- Opcode 0x8B, `ADC A, E`. -/
def ADC_A_E (_stepInfo : OperandInfo) (cpu : CPU) : Option CPU :=
  some (cpu.ADC cpu.regs.e)

/-- Opcode 0x8C, `ADC A, H`. -/
def ADC_A_H (_stepInfo : OperandInfo) (cpu : CPU) : Option CPU :=
  some (cpu.ADC cpu.regs.h)

/-- Opcode 0x8D, `ADC A, L`. -/
def ADC_A_L (_stepInfo : OperandInfo) (cpu : CPU) : Option CPU :=
  some (cpu.ADC cpu.regs.l)

/-- Opcode 0x8E, `ADC A, (HL)`. -/
def ADC_A_HL (_stepInfo : OperandInfo) (cpu : CPU) : Option CPU :=
  match cpu.mem.Read8 cpu.regs.GetHL with
  | .ok v => some (cpu.ADC v)
  | _ => none

/-- Opcode 0x8F, `ADC A, A`. -/
def ADC_A_A (_stepInfo : OperandInfo) (cpu : CPU) : Option CPU :=
  some (cpu.ADC cpu.regs.a)

/-- Opcode 0x90, `SUB B`. -/
def SUB_B (_stepInfo : OperandInfo) (cpu : CPU) : Option CPU :=
  some (cpu.SUB cpu.regs.b)

/-- Opcode 0x91, `SUB C`. -/
def SUB_C (_stepInfo : OperandInfo) (cpu : CPU) : Option CPU :=
  some (cpu.SUB cpu.regs.c)

/-- Opcode 0x92, `SUB D`. -/
def SUB_D (_stepInfo : OperandInfo) (cpu : CPU) : Option CPU :=
  some (cpu.SUB cpu.regs.d)

/-- Opcode 0x93, `SUB E`. -/
def SUB_E (_stepInfo : OperandInfo) (cpu : CPU) : Option CPU :=
  some (cpu.SUB cpu.regs.e)

/-- Opcode 0x94, `SUB H`. -/
def SUB_H (_stepInfo : OperandInfo) (cpu : CPU) : Option CPU :=
  some (cpu.SUB cpu.regs.h)

/-- Opcode 0x95, `SUB L`. -/
def SUB_L (_stepInfo : OperandInfo) (cpu : CPU) : Option CPU :=
  some (cpu.SUB cpu.regs.l)

/-- Opcode 0x96, `SUB (HL+)`. -/
def SUB_HL (_stepInfo : OperandInfo) (cpu : CPU) : Option CPU :=
  match cpu.mem.Read8 cpu.regs.GetHL with
  | .ok v => some (cpu.SUB v)
  | _ => none

/-- Opcode 0x97, `SUB A`. -/
def SUB_A (_stepInfo : OperandInfo) (cpu : CPU) : Option CPU :=
  some (cpu.SUB cpu.regs.a)

/-- Opcode 0x98, `SBC A, B`. -/
def SBC_A_B (_stepInfo : OperandInfo) (cpu : CPU) : Option CPU :=
  some (cpu.SBC cpu.regs.b)

/-- Opcode 0x99, `SBC A, C`. -/
def SBC_A_C (_stepInfo : OperandInfo) (cpu : CPU) : Option CPU :=
  some (cpu.SBC cpu.regs.c)

/-- Opcode 0x9A, `SBC A, D`. -/
def SBC_A_D (_stepInfo : OperandInfo) (cpu : CPU) : Option CPU :=
  some (cpu.SBC cpu.regs.d)

/-- Opcode 0x9B, `SBC A, E`. -/
def SBC_A_E (_stepInfo : OperandInfo) (cpu : CPU) : Option CPU :=
  some (cpu.SBC cpu.regs.e)

/-- Opcode 0x9C, `SBC A, H`. -/
def SBC_A_H (_stepInfo : OperandInfo) (cpu : CPU) : Option CPU :=
  some (cpu.SBC cpu.regs.h)

/-- Opcode 0x9D, `SBC A, L`. -/
def SBC_A_L (_stepInfo : OperandInfo) (cpu : CPU) : Option CPU :=
  some (cpu.SBC cpu.regs.l)

/-- Opcode 0x9E, `SBC A, (HL)`. -/
def SBC_A_HL (_stepInfo : OperandInfo) (cpu : CPU) : Option CPU :=
  match cpu.mem.Read8 cpu.regs.GetHL with
  | .ok v => some (cpu.SBC v)
  | _ => none

/-- Opcode 0x9F, `SBC A, A`. -/
def SBC_A_A (_stepInfo : OperandInfo) (cpu : CPU) : Option CPU :=
  some (cpu.SBC cpu.regs.a)

/-- Opcode 0xA0, `AND B`. -/
def AND_B (_stepInfo : OperandInfo) (cpu : CPU) : Option CPU :=
  some (cpu.AND cpu.regs.b)

/-- Opcode 0xA1, `AND C`. -/
def AND_C (_stepInfo : OperandInfo) (cpu : CPU) : Option CPU :=
  some (cpu.AND cpu.regs.c)

/-- Opcode 0xA2, `AND D`. -/
def AND_D (_stepInfo : OperandInfo) (cpu : CPU) : Option CPU :=
  some (cpu.AND cpu.regs.d)

/-- Opcode 0xA3, `AND E`. -/
def AND_E (_stepInfo : OperandInfo) (cpu : CPU) : Option CPU :=
  some (cpu.AND cpu.regs.e)

/-- Opcode 0xA4, `AND H`. -/
def AND_H (_stepInfo : OperandInfo) (cpu : CPU) : Option CPU :=
  some (cpu.AND cpu.regs.h)

/-- Opcode 0xA5, `AND L`. -/
def AND_L (_stepInfo : OperandInfo) (cpu : CPU) : Option CPU :=
  some (cpu.AND cpu.regs.l)

/-- Opcode 0xA6, `AND (HL)`. -/
def AND_HL (_stepInfo : OperandInfo) (cpu : CPU) : Option CPU :=
  match cpu.mem.Read8 cpu.regs.GetHL with
  | .ok v => some (cpu.AND v)
  | _ => none

/-- Opcode 0xA7, `AND A`. -/
def AND_A (_stepInfo : OperandInfo) (cpu : CPU) : Option CPU :=
  some (cpu.AND cpu.regs.a)

/-- Opcode 0xA8, `XOR B`. -/
def XOR_B (_stepInfo : OperandInfo) (cpu : CPU) : Option CPU :=
  some (cpu.XOR cpu.regs.b)

/-- Opcode 0xA9, `XOR C`. -/
def XOR_C (_stepInfo : OperandInfo) (cpu : CPU) : Option CPU :=
  some (cpu.XOR cpu.regs.c)

/-- Opcode 0xAA, `XOR D`. -/
def XOR_D (_stepInfo : OperandInfo) (cpu : CPU) : Option CPU :=
  some (cpu.XOR cpu.regs.d)

/-- Opcode 0xAB, `XOR E`. -/
def XOR_E (_stepInfo : OperandInfo) (cpu : CPU) : Option CPU :=
  some (cpu.XOR cpu.regs.e)

/-- Opcode 0xAC, `XOR H`. -/
def XOR_H (_stepInfo : OperandInfo) (cpu : CPU) : Option CPU :=
  some (cpu.XOR cpu.regs.h)

/-- Opcode 0xAD, `XOR L`. -/
def XOR_L (_stepInfo : OperandInfo) (cpu : CPU) : Option CPU :=
  some (cpu.XOR cpu.regs.l)

/-- Opcode 0xAE, `XOR (HL)`. -/
def XOR_HL (_stepInfo : OperandInfo) (cpu : CPU) : Option CPU :=
  match cpu.mem.Read8 cpu.regs.GetHL with
  | .ok v => some (cpu.XOR v)
  | _ => none

/-- Opcode 0xAF, `XOR A`. -/
def XOR_A (_stepInfo : OperandInfo) (cpu : CPU) : Option CPU :=
  some (cpu.XOR cpu.regs.a)

/-- Opcode 0xB0, `OR B`. -/
def OR_B (_stepInfo : OperandInfo) (cpu : CPU) : Option CPU :=
  some (cpu.OR cpu.regs.b)

/-- Opcode 0xB1, `OR C`. -/
def OR_C (_stepInfo : OperandInfo) (cpu : CPU) : Option CPU :=
  some (cpu.OR cpu.regs.c)

/-- Opcode 0xB2, `OR D`. -/
def OR_D (_stepInfo : OperandInfo) (cpu : CPU) : Option CPU :=
  some (cpu.OR cpu.regs.d)

/-- Opcode 0xB3, `OR E`. -/
def OR_E (_stepInfo : OperandInfo) (cpu : CPU) : Option CPU :=
  some (cpu.OR cpu.regs.e)

/-- Opcode 0xB4, `OR H`. -/
def OR_H (_stepInfo : OperandInfo) (cpu : CPU) : Option CPU :=
  some (cpu.OR cpu.regs.h)

/-- Opcode 0xB5, `OR L`. -/
def OR_L (_stepInfo : OperandInfo) (cpu : CPU) : Option CPU :=
  some (cpu.OR cpu.regs.l)

/-- Opcode 0xB6, `OR (HL)`. -/
def OR_HL (_stepInfo : OperandInfo) (cpu : CPU) : Option CPU :=
  match cpu.mem.Read8 cpu.regs.GetHL with
  | .ok v => some (cpu.OR v)
  | _ => none

/-- Opcode 0xB7, `OR A`. -/
def OR_A (_stepInfo : OperandInfo) (cpu : CPU) : Option CPU :=
  some (cpu.OR cpu.regs.a)

/-- Opcode 0xB8, `CP B`. -/
def CP_B (_stepInfo : OperandInfo) (cpu : CPU) : Option CPU :=
  some (cpu.CP cpu.regs.b)

/-- Opcode 0xB9, `CP C`. -/
def CP_C (_stepInfo : OperandInfo) (cpu : CPU) : Option CPU :=
  some (cpu.CP cpu.regs.c)

/-- Opcode 0xBA, `CP D`. -/
def CP_D (_stepInfo : OperandInfo) (cpu : CPU) : Option CPU :=
  some (cpu.CP cpu.regs.d)

/-- Opcode 0xBB, `CP E`. -/
def CP_E (_stepInfo : OperandInfo) (cpu : CPU) : Option CPU :=
  some (cpu.CP cpu.regs.e)

/-- Opcode 0xBC, `CP H`. -/
def CP_H (_stepInfo : OperandInfo) (cpu : CPU) : Option CPU :=
  some (cpu.CP cpu.regs.h)

/-- Opcode 0xBD, `CP L`. -/
def CP_L (_stepInfo : OperandInfo) (cpu : CPU) : Option CPU :=
  some (cpu.CP cpu.regs.l)

/-- Opcode 0xBE, `CP (HL)`. -/
def CP_HL (_stepInfo : OperandInfo) (cpu : CPU) : Option CPU :=
  match cpu.mem.Read8 cpu.regs.GetHL with
  | .ok v => some (cpu.CP v)
  | _ => none

/-- Opcode 0xBF, `CP A`. -/
def CP_A (_stepInfo : OperandInfo) (cpu : CPU) : Option CPU :=
  some (cpu.CP cpu.regs.a)

/-! ## Control-flow instructions present in the source but commented out
of the dispatch table (`cpu.go`, opcodes 0xC0-0xC3) -/

/-- Opcode 0xC0, `RET NZ`: on a clear zero flag, `PC` is loaded from the
stack via the stub `Read16` and `SP` is bumped; then `PC` is incremented
unconditionally. -/
def RET_NZ (_stepInfo : OperandInfo) (cpu : CPU) : Option CPU :=
  let cpu1 :=
    if cpu.regs.GetZero = 0 then
      { cpu with regs := { cpu.regs with
          pc := cpu.mem.Read16 cpu.regs.sp,
          sp := (cpu.regs.sp + 2) % 65536 } }
    else cpu
  some { cpu1 with regs := { cpu1.regs with pc := (cpu1.regs.pc + 1) % 65536 } }

/-- Opcode 0xC1, `POP BC`. -/
def POP_BC (_stepInfo : OperandInfo) (cpu : CPU) : Option CPU :=
  let r1 := cpu.regs.SetBC (cpu.mem.Read16 cpu.regs.sp)
  let r2 := { r1 with sp := (r1.sp + 2) % 65536 }
  some { cpu with regs := { r2 with pc := (r2.pc + 1) % 65536 } }

/-- Opcode 0xC2, `JP NZ, nn`. -/
def JP_NZ_NN (stepInfo : OperandInfo) (cpu : CPU) : Option CPU :=
  if cpu.regs.GetZero = 0 then
    some { cpu with regs := { cpu.regs with pc := stepInfo.operand16 } }
  else
    some { cpu with regs := { cpu.regs with pc := (cpu.regs.pc + 3) % 65536 } }

/-- Opcode 0xC3, `JP nn`. -/
def JP_NN (stepInfo : OperandInfo) (cpu : CPU) : Option CPU :=
  some { cpu with regs := { cpu.regs with pc := stepInfo.operand16 } }

/-! ## The dispatch table (`CreateTable`) and ticks table (`CreateTicks`) -/

/-- `type Instruction` (`cpu.go`): display name, total instruction byte
count (the misspelt field name is the source's), and the execute effect. -/
structure Instruction where
  name : String
  instuctionLength : Nat
  execute : OperandInfo → CPU → Option CPU

/-- The Go zero value of `Instruction`, filling the table entries that the
`CreateTable` literal leaves out (0xC0 and upward): empty name, length 0,
and a `nil` function pointer (whose invocation would be a panic, `none`;
`Step` never invokes it because the length is 0). -/
def zeroInstruction : Instruction :=
  { name := "", instuctionLength := 0, execute := fun _ _ => none }

/-- The 192 explicit entries of the `[256]Instruction` literal in
`CreateTable` (`cpu.go`); entries 0xC0-0xFF are left to the Go zero value
(`RET NZ`, `POP BC`, `JP NZ, nn` are commented out in the source). -/
def tableEntries : List Instruction := [
  Instruction.mk "NOP" 0 NOP,  -- 0x00
  Instruction.mk "LD BC, d16" 3 LD_BC_d16,  -- 0x01
  Instruction.mk "LD (BC), A" 1 LD_BC_A,  -- 0x02
  Instruction.mk "INC BC" 1 INC_BC,  -- 0x03
  Instruction.mk "INC B" 1 INC_B,  -- 0x04
  Instruction.mk "DEC B" 1 DEC_B,  -- 0x05
  Instruction.mk "LD B, d8" 2 LD_B_d8,  -- 0x06
  Instruction.mk "RLCA" 1 RLCA,  -- 0x07
  Instruction.mk "LD (a16), SP" 3 LD_a16_SP,  -- 0x08
  Instruction.mk "ADD HL, BC" 1 ADD_HL_BC,  -- 0x09
  Instruction.mk "LD A, (BC)" 1 LD_A_BC,  -- 0x0A
  Instruction.mk "DEC BC" 1 DEC_BC,  -- 0x0B
  Instruction.mk "INC C" 1 INC_C,  -- 0x0C
  Instruction.mk "DEC C" 1 DEC_C,  -- 0x0D
  Instruction.mk "LD C, d8" 2 LD_C_d8,  -- 0x0E
  Instruction.mk "RRCA" 1 RRCA,  -- 0x0F
  Instruction.mk "STOP" 1 STOP,  -- 0x10
  Instruction.mk "LD DE, d16" 3 LD_DE_d16,  -- 0x11
  Instruction.mk "LD (DE), A" 1 LD_DE_A,  -- 0x12
  Instruction.mk "INC DE" 1 INC_DE,  -- 0x13
  Instruction.mk "INC D" 1 INC_D,  -- 0x14
  Instruction.mk "DEC D" 1 DEC_D,  -- 0x15
  Instruction.mk "LD D, d8" 2 LD_D_d8,  -- 0x16
  Instruction.mk "RLA" 1 RLA,  -- 0x17
  Instruction.mk "JR r8" 2 JR_r8,  -- 0x18
  Instruction.mk "ADD HL, DE" 1 ADD_HL_DE,  -- 0x19
  Instruction.mk "LD A, (DE)" 1 LD_A_DE,  -- 0x1A
  Instruction.mk "DEC DE" 1 DEC_DE,  -- 0x1B
  Instruction.mk "INC E" 1 INC_E,  -- 0x1C
  Instruction.mk "DEC E" 1 DEC_E,  -- 0x1D
  Instruction.mk "LD E, d8" 2 LD_E_d8,  -- 0x1E
  Instruction.mk "RRA" 1 RRA,  -- 0x1F
  Instruction.mk "JR NZ, r8" 2 JR_NZ_r8,  -- 0x20
  Instruction.mk "LD HL, d16" 3 LD_HL_d16,  -- 0x21
  Instruction.mk "LD (HL+), A" 1 LDi_HLp_A,  -- 0x22
  Instruction.mk "INC HL" 1 INC_HL,  -- 0x23
  Instruction.mk "INC H" 1 INC_H,  -- 0x24
  Instruction.mk "DEC H" 1 DEC_H,  -- 0x25
  Instruction.mk "LD H, d8" 2 LD_H_d8,  -- 0x26
  Instruction.mk "DAA" 1 DAA,  -- 0x27
  Instruction.mk "JR Z, r8" 2 JR_Z_r8,  -- 0x28
  Instruction.mk "ADD HL, HL" 1 ADD_HL_HL,  -- 0x29
  Instruction.mk "LD A, (HL+)" 1 LDi_A_HLp,  -- 0x2A
  Instruction.mk "DEC HL" 1 DEC_HL,  -- 0x2B
  Instruction.mk "INC L" 1 INC_L,  -- 0x2C
  Instruction.mk "DEC L" 1 DEC_L,  -- 0x2D
  Instruction.mk "LD L, d8" 2 LD_L_d8,  -- 0x2E
  Instruction.mk "CPL" 1 CPL,  -- 0x2F
  Instruction.mk "JR NC, r8" 2 JR_NC_r8,  -- 0x30
  Instruction.mk "LD SP, d16" 3 LD_SP_d16,  -- 0x31
  Instruction.mk "LD (HL-), A" 1 LD_HLm_A,  -- 0x32
  Instruction.mk "INC SP" 1 INC_SP,  -- 0x33
  Instruction.mk "INC (HL+)" 1 INC_HLp,  -- 0x34
  Instruction.mk "DEC (HL)" 1 DEC_HLp,  -- 0x35
  Instruction.mk "LD (HL), d8" 2 LD_HLp_d8,  -- 0x36
  Instruction.mk "SCF" 1 SCF,  -- 0x37
  Instruction.mk "JR C, r8" 2 JR_C_r8,  -- 0x38
  Instruction.mk "ADD HL, SP" 1 ADD_HL_SP,  -- 0x39
  Instruction.mk "LD A, (HL-)" 1 LD_A_HLm,  -- 0x3A
  Instruction.mk "DEC SP" 1 DEC_SP,  -- 0x3B
  Instruction.mk "INC A" 1 INC_A,  -- 0x3C
  Instruction.mk "DEC A" 1 DEC_A,  -- 0x3D
  Instruction.mk "LD A, d8" 2 LD_A_d8,  -- 0x3E
  Instruction.mk "CCF" 1 CCF,  -- 0x3F
  Instruction.mk "LD B, B" 1 LD_B_B,  -- 0x40
  Instruction.mk "LD B, C" 1 LD_B_C,  -- 0x41
  Instruction.mk "LD B, D" 1 LD_B_D,  -- 0x42
  Instruction.mk "LD B, E" 1 LD_B_E,  -- 0x43
  Instruction.mk "LD B, H" 1 LD_B_H,  -- 0x44
  Instruction.mk "LD B, L" 1 LD_B_L,  -- 0x45
  Instruction.mk "LD B, (HL+)" 1 LD_B_HLp,  -- 0x46
  Instruction.mk "LD B, A" 1 LD_B_A,  -- 0x47
  Instruction.mk "LD C, B" 1 LD_C_B,  -- 0x48
  Instruction.mk "LD C, C" 1 LD_C_C,  -- 0x49
  Instruction.mk "LD C, D" 1 LD_C_D,  -- 0x4A
  Instruction.mk "LD C, E" 1 LD_C_E,  -- 0x4B
  Instruction.mk "LD C, H" 1 LD_C_H,  -- 0x4C
  Instruction.mk "LD C, L" 1 LD_C_L,  -- 0x4D
  Instruction.mk "LD C, (HL+)" 1 LD_C_HLp,  -- 0x4E
  Instruction.mk "LD C, A" 1 LD_C_A,  -- 0x4F
  Instruction.mk "LD D, B" 1 LD_D_B,  -- 0x50
  Instruction.mk "LD D, C" 1 LD_D_C,  -- 0x51
  Instruction.mk "LD D, D" 1 LD_D_D,  -- 0x52
  Instruction.mk "LD D, E" 1 LD_D_E,  -- 0x53
  Instruction.mk "LD D, H" 1 LD_D_H,  -- 0x54
  Instruction.mk "LD D, L" 1 LD_D_L,  -- 0x55
  Instruction.mk "LD D, (HL+)" 1 LD_D_HLp,  -- 0x56
  Instruction.mk "LD D, A" 1 LD_D_A,  -- 0x57
  Instruction.mk "LD E, B" 1 LD_E_B,  -- 0x58
  Instruction.mk "LD E, C" 1 LD_E_C,  -- 0x59
  Instruction.mk "LD E, D" 1 LD_E_D,  -- 0x5A
  Instruction.mk "LD E, E" 1 LD_E_E,  -- 0x5B
  Instruction.mk "LD E, H" 1 LD_E_H,  -- 0x5C
  Instruction.mk "LD E, L" 1 LD_E_L,  -- 0x5D
  Instruction.mk "LD E, (HL+)" 1 LD_E_HLp,  -- 0x5E
  Instruction.mk "LD E, A" 1 LD_E_A,  -- 0x5F
  Instruction.mk "LD H, B" 1 LD_H_B,  -- 0x60
  Instruction.mk "LD H, C" 1 LD_H_C,  -- 0x61
  Instruction.mk "LD H, D" 1 LD_H_D,  -- 0x62
  Instruction.mk "LD H, E" 1 LD_H_E,  -- 0x63
  Instruction.mk "LD H, H" 1 LD_H_H,  -- 0x64
  Instruction.mk "LD H, L" 1 LD_H_L,  -- 0x65
  Instruction.mk "LD H, (HL+)" 1 LD_H_HLp,  -- 0x66
  Instruction.mk "LD H, A" 1 LD_H_A,  -- 0x67
  Instruction.mk "LD L, B" 1 LD_L_B,  -- 0x68
  Instruction.mk "LD L, C" 1 LD_L_C,  -- 0x69
  Instruction.mk "LD L, D" 1 LD_L_D,  -- 0x6A
  Instruction.mk "LD L, E" 1 LD_L_E,  -- 0x6B
  Instruction.mk "LD L, H" 1 LD_L_H,  -- 0x6C
  Instruction.mk "LD L, L" 1 LD_L_L,  -- 0x6D
  Instruction.mk "LD L, (HL+)" 1 LD_L_HLp,  -- 0x6E
  Instruction.mk "LD L, A" 1 LD_L_A,  -- 0x6F
  Instruction.mk "LD (HL+), B" 1 LD_HLp_B,  -- 0x70
  Instruction.mk "LD (HL+), C" 1 LD_HLp_C,  -- 0x71
  Instruction.mk "LD (HL+), D" 1 LD_HLp_D,  -- 0x72
  Instruction.mk "LD (HL+), E" 1 LD_HLp_E,  -- 0x73
  Instruction.mk "LD (HL+), H" 1 LD_HLp_H,  -- 0x74
  Instruction.mk "LD (HL+), L" 1 LD_HLp_L,  -- 0x75
  Instruction.mk "HALT" 1 HALT,  -- 0x76
  Instruction.mk "LD (HL), A" 1 LD_HL_A,  -- 0x77
  Instruction.mk "LD A, B" 1 LD_A_B,  -- 0x78
  Instruction.mk "LD A, C" 1 LD_A_C,  -- 0x79
  Instruction.mk "LD A, D" 1 LD_A_D,  -- 0x7A
  Instruction.mk "LD A, E" 1 LD_A_E,  -- 0x7B
  Instruction.mk "LD A, H" 1 LD_A_H,  -- 0x7C
  Instruction.mk "LD A, L" 1 LD_A_L,  -- 0x7D
  Instruction.mk "LD A, (HL+)" 1 LD_A_HLp,  -- 0x7E
  Instruction.mk "LD A, A" 1 LD_A_A,  -- 0x7F
  Instruction.mk "ADD A, B" 1 ADD_A_B,  -- 0x80
  Instruction.mk "ADD A, C" 1 ADD_A_C,  -- 0x81
  Instruction.mk "ADD A, D" 1 ADD_A_D,  -- 0x82
  Instruction.mk "ADD A, E" 1 ADD_A_E,  -- 0x83
  Instruction.mk "ADD A, H" 1 ADD_A_H,  -- 0x84
  Instruction.mk "ADD A, L" 1 ADD_A_L,  -- 0x85
  Instruction.mk "ADD A, (HL)" 1 ADD_A_HL,  -- 0x86
  Instruction.mk "ADD A, A" 1 ADD_A_A,  -- 0x87
  Instruction.mk "ADC A, B" 1 ADC_A_B,  -- 0x88
  Instruction.mk "ADC A, C" 1 ADC_A_C,  -- 0x89
  Instruction.mk "ADC A, D" 1 ADC_A_D,  -- 0x8A
  Instruction.mk "ADC A, E" 1 ADC_A_E,  -- 0x8B
  Instruction.mk "ADC A, H" 1 ADC_A_H,  -- 0x8C
  Instruction.mk "ADC A, L" 1 ADC_A_L,  -- 0x8D
  Instruction.mk "ADC A, (HL)" 1 ADC_A_HL,  -- 0x8E
  Instruction.mk "ADC A, A" 1 ADC_A_A,  -- 0x8F
  Instruction.mk "SUB B" 1 SUB_B,  -- 0x90
  Instruction.mk "SUB C" 1 SUB_C,  -- 0x91
  Instruction.mk "SUB D" 1 SUB_D,  -- 0x92
  Instruction.mk "SUB E" 1 SUB_E,  -- 0x93
  Instruction.mk "SUB H" 1 SUB_H,  -- 0x94
  Instruction.mk "SUB L" 1 SUB_L,  -- 0x95
  Instruction.mk "SUB (HL)" 1 SUB_HL,  -- 0x96
  Instruction.mk "SUB A" 1 SUB_A,  -- 0x97
  Instruction.mk "SBC A, B" 1 SBC_A_B,  -- 0x98
  Instruction.mk "SBC A, C" 1 SBC_A_C,  -- 0x99
  Instruction.mk "SBC A, D" 1 SBC_A_D,  -- 0x9A
  Instruction.mk "SBC A, E" 1 SBC_A_E,  -- 0x9B
  Instruction.mk "SBC A, H" 1 SBC_A_H,  -- 0x9C
  Instruction.mk "SBC A, L" 1 SBC_A_L,  -- 0x9D
  Instruction.mk "SBC A, (HL)" 1 SBC_A_HL,  -- 0x9E
  Instruction.mk "SBC A, A" 1 SBC_A_A,  -- 0x9F
  Instruction.mk "AND B" 1 AND_B,  -- 0xA0
  Instruction.mk "AND C" 1 AND_C,  -- 0xA1
  Instruction.mk "AND D" 1 AND_D,  -- 0xA2
  Instruction.mk "AND E" 1 AND_E,  -- 0xA3
  Instruction.mk "AND H" 1 AND_H,  -- 0xA4
  Instruction.mk "AND L" 1 AND_L,  -- 0xA5
  Instruction.mk "AND (HL)" 1 AND_HL,  -- 0xA6
  Instruction.mk "AND A" 1 AND_A,  -- 0xA7
  Instruction.mk "XOR B" 1 XOR_B,  -- 0xA8
  Instruction.mk "XOR C" 1 XOR_C,  -- 0xA9
  Instruction.mk "XOR D" 1 XOR_D,  -- 0xAA
  Instruction.mk "XOR E" 1 XOR_E,  -- 0xAB
  Instruction.mk "XOR H" 1 XOR_H,  -- 0xAC
  Instruction.mk "XOR L" 1 XOR_L,  -- 0xAD
  Instruction.mk "XOR (HL)" 1 XOR_HL,  -- 0xAE
  Instruction.mk "XOR A" 1 XOR_A,  -- 0xAF
  Instruction.mk "OR B" 1 OR_B,  -- 0xB0
  Instruction.mk "OR C" 1 OR_C,  -- 0xB1
  Instruction.mk "OR D" 1 OR_D,  -- 0xB2
  Instruction.mk "OR E" 1 OR_E,  -- 0xB3
  Instruction.mk "OR H" 1 OR_H,  -- 0xB4
  Instruction.mk "OR L" 1 OR_L,  -- 0xB5
  Instruction.mk "OR (HL)" 1 OR_HL,  -- 0xB6
  Instruction.mk "OR A" 1 OR_A,  -- 0xB7
  Instruction.mk "CP B" 1 CP_B,  -- 0xB8
  Instruction.mk "CP C" 1 CP_C,  -- 0xB9
  Instruction.mk "CP D" 1 CP_D,  -- 0xBA
  Instruction.mk "CP E" 1 CP_E,  -- 0xBB
  Instruction.mk "CP H" 1 CP_H,  -- 0xBC
  Instruction.mk "CP L" 1 CP_L,  -- 0xBD
  Instruction.mk "CP (HL)" 1 CP_HL,  -- 0xBE
  Instruction.mk "CP A" 1 CP_A]  -- 0xBF

/-- `CreateTable` (`cpu.go`), as the installed lookup: index the table
literal, with the Go zero value for the zero-filled tail. -/
def CreateTable (opcode : Nat) : Instruction :=
  tableEntries.getD opcode zeroInstruction

/-- The 256 entries of the `[256]uint8` cycle-cost literal in
`CreateTicks` (`cpu.go`). -/
def ticksTableEntries : List Nat := [
  2, 6, 4, 4, 2, 2, 4, 4, 10, 4, 4, 4, 2, 2, 4, 4,
  2, 6, 4, 4, 2, 2, 4, 4, 4, 4, 4, 4, 2, 2, 4, 4,
  0, 6, 4, 4, 2, 2, 4, 2, 0, 4, 4, 4, 2, 2, 4, 2,
  4, 6, 4, 4, 6, 6, 6, 2, 0, 4, 4, 4, 2, 2, 4, 2,
  2, 2, 2, 2, 2, 2, 4, 2, 2, 2, 2, 2, 2, 2, 4, 2,
  2, 2, 2, 2, 2, 2, 4, 2, 2, 2, 2, 2, 2, 2, 4, 2,
  2, 2, 2, 2, 2, 2, 4, 2, 2, 2, 2, 2, 2, 2, 4, 2,
  4, 4, 4, 4, 4, 4, 2, 4, 2, 2, 2, 2, 2, 2, 4, 2,
  2, 2, 2, 2, 2, 2, 4, 2, 2, 2, 2, 2, 2, 2, 4, 2,
  2, 2, 2, 2, 2, 2, 4, 2, 2, 2, 2, 2, 2, 2, 4, 2,
  2, 2, 2, 2, 2, 2, 4, 2, 2, 2, 2, 2, 2, 2, 4, 2,
  2, 2, 2, 2, 2, 2, 4, 2, 2, 2, 2, 2, 2, 2, 4, 2,
  0, 6, 0, 6, 0, 8, 4, 8, 0, 2, 0, 0, 0, 6, 4, 8,
  0, 6, 0, 0, 0, 8, 4, 8, 0, 8, 0, 0, 0, 0, 4, 8,
  6, 6, 4, 0, 0, 8, 4, 8, 8, 2, 8, 0, 0, 0, 4, 8,
  6, 6, 4, 2, 0, 8, 4, 8, 6, 4, 8, 2, 0, 0, 4, 8]

/-- `CreateTicks` (`cpu.go`), as the installed lookup. -/
def CreateTicks (opcode : Nat) : Nat :=
  ticksTableEntries.getD opcode 0

/-! ## `Step` and `Reset` (`cpu.go`) -/

/-- `CPU.Step` (`cpu.go`): if stopped, return at once; otherwise fetch the
opcode at `PC`, increment `PC`, dispatch on the instruction's declared
length. Lengths 2 and 3 fetch the operand at the current `PC` and then add
the *operand's numeric value* to `PC` (`cpu.regs.pc += uint16(operand)` /
`cpu.regs.pc += operand` in the source). Finally the ticks-table cost of
the opcode is accumulated. `none` is a runtime panic (a failed memory
fetch, a panicking execute effect, or the `default` length branch). -/
def Step (cpu : CPU) : Option CPU :=
  if cpu.stopped then
    some cpu
  else
    match cpu.mem.Read8 cpu.regs.pc with
    | .ok opcode =>
        let cpu1 := { cpu with regs := { cpu.regs with pc := (cpu.regs.pc + 1) % 65536 } }
        let instruction := CreateTable opcode
        let afterExec : Option CPU :=
          match instruction.instuctionLength with
          | 0 => some cpu1
          | 1 => instruction.execute { operand8 := 0, operand16 := 0 } cpu1
          | 2 =>
              match cpu1.mem.Read8 cpu1.regs.pc with
              | .ok operand =>
                  let cpu2 := { cpu1 with regs :=
                    { cpu1.regs with pc := (cpu1.regs.pc + operand) % 65536 } }
                  instruction.execute { operand8 := operand, operand16 := 0 } cpu2
              | _ => none
          | 3 =>
              let operand := cpu1.mem.Read16 cpu1.regs.pc
              let cpu2 := { cpu1 with regs :=
                { cpu1.regs with pc := (cpu1.regs.pc + operand) % 65536 } }
              instruction.execute { operand8 := 0, operand16 := operand } cpu2
          | _ => none
        afterExec.map (fun cpu3 => { cpu3 with ticks := cpu3.ticks + CreateTicks opcode })
    | _ => none

/-- `CPU.Reset` (`cpu.go`): documented post-boot register pair values,
`SP = 0xFFFE`, `PC = 0x0100`, running, zero cycle counter. The flags and
accumulator are untouched (the `af` write is commented out). -/
def Reset (cpu : CPU) : CPU :=
  let r1 := cpu.regs.SetBC 0x0013
  let r2 := r1.SetDE 0x00D8
  let r3 := r2.SetHL 0x014D
  { cpu with
    regs := { r3 with sp := 0xFFFE, pc := 0x0100 },
    stopped := false,
    ticks := 0 }

/-! ## Concrete fixtures -/

/-- The Go zero value of `Registers`. -/
def zeroRegisters : Registers :=
  { a := 0, b := 0, c := 0, d := 0, e := 0, h := 0, l := 0, f := 0,
    pc := 0, sp := 0 }

/-- A `MemoryMap` whose backing arrays are all zero-initialized, as Go
leaves them at construction. -/
def zeroMemoryMap : MemoryMap :=
  { cart := fun _ => 0, vram := fun _ => 0, sram := fun _ => 0,
    wram := fun _ => 0, oam := fun _ => 0, hram := fun _ => 0,
    io := fun _ => 0 }

/-- Work RAM with a marker byte at offset 0, to probe which offset the
echo-RAM read really resolves to. -/
def echoProbeMem : MemoryMap :=
  { zeroMemoryMap with wram := fun i => if i = 0 then 0xCD else 0 }

/-- A cartridge image holding `LD B, d8` (`0x06 0x42`) at the reset entry
point `0x0100`. -/
def ldBDemoMem : MemoryMap :=
  { zeroMemoryMap with
    cart := fun i => if i = 0x0100 then 0x06 else if i = 0x0101 then 0x42 else 0 }

/-- A freshly reset CPU about to execute `LD B, 0x42`. -/
def ldBDemoCPU : CPU :=
  Reset { regs := zeroRegisters, mem := ldBDemoMem, ticks := 0, stopped := false }

/-- A CPU with accumulator `0x08`, for probing `ADD`'s half-carry. -/
def addProbeCPU : CPU :=
  { regs := { zeroRegisters with a := 0x08 }, mem := zeroMemoryMap,
    ticks := 0, stopped := false }

/-- A CPU with accumulator `0xFF` and clear carry, for probing `ADC`'s
zero flag on an overflowing sum. -/
def adcProbeCPU : CPU :=
  { regs := { zeroRegisters with a := 0xFF }, mem := zeroMemoryMap,
    ticks := 0, stopped := false }

/-- A stopped CPU with a nonzero cycle counter. -/
def stoppedProbeCPU : CPU :=
  { regs := zeroRegisters, mem := zeroMemoryMap, ticks := 7, stopped := true }

/-- A running CPU whose whole cartridge is filled with the undefined
opcode `0xC0`. -/
def undefOpcodeCPU : CPU :=
  { regs := zeroRegisters, mem := { zeroMemoryMap with cart := fun _ => 0xC0 },
    ticks := 0, stopped := false }

/-! ## Theorems about the claims -/

/-- Entries from 0xC0 on are the Go zero value: the `CreateTable` literal
stops at 0xBF. -/
theorem createTable_zero_of_ge (op : Nat) (hop : 192 ≤ op) :
    CreateTable op = zeroInstruction := by
  unfold CreateTable
  apply List.getD_eq_default
  have hlen : tableEntries.length = 192 := by rfl
  omega

/-- C1: the scenario of the claim — reset, then execute `0x06 0x42`
(`LD B, d8`). Register B does become `0x42` and the cycle counter gains
the ticks-table value 4 for opcode `0x06`, but `Step` advances `PC` by
`1 + 0x42` (the operand's numeric value), landing at `0x0143` instead of
the claimed `0x0102`. -/
theorem step_adds_operand_value_to_pc :
    ((Step ldBDemoCPU).map (fun cpu => (cpu.regs.b, cpu.regs.pc, cpu.ticks))
        = some (0x42, 0x0143, 4))
    ∧ (0x0143 : Nat) ≠ 0x0102 := by
  decide

/-- C2: the 16-bit round-trip law fails — `Write16` has an empty body and
`Read16` returns the constant 0, so writing `0x1234` at `0xC000` and
reading it back yields 0. -/
theorem write16_read16_not_roundtrip :
    (zeroMemoryMap.Write16 0xC000 0x1234).Read16 0xC000 = 0
    ∧ (0 : Nat) ≠ 0x1234 := by
  decide

/-- C3: the echo-RAM aliasing law fails. Writing `0xAB` at `0xE000`
through the stub `Write8` leaves memory unchanged, so the read at
`0xC000` still yields 0; moreover, even pure reads are misaligned — with
a marker at work-RAM offset 0, `0xC000` reads `0xCD` while the echo
address `0xE000` reads work-RAM offset `0x1000` (value 0). -/
theorem echo_alias_fails :
    ((zeroMemoryMap.Write8 0xE000 0xAB).map (fun m => m.Read8 0xC000)
        = some (.ok 0))
    ∧ ReadResult.ok 0 ≠ .ok 0xAB
    ∧ echoProbeMem.Read8 0xC000 = .ok 0xCD
    ∧ echoProbeMem.Read8 0xE000 = .ok 0 := by
  decide

/-- C4: `ADD`'s half-carry is computed from the already updated
accumulator nibble, not the original one. With `a = b = 0x08` the stored
sum is `0x10`, the code's test `(0x10 & 0xF) + (0x08 & 0xF) = 8 ≤ 0xF`
clears half-carry, yet the claimed test `(0x08 & 0xF) + (0x08 & 0xF) =
16 > 0xF` demands it be set. -/
theorem add_halfcarry_from_result_nibble :
    ((addProbeCPU.ADD addProbeCPU.regs.a 0x08).1.regs.GetHalfCarry = 0)
    ∧ ((addProbeCPU.ADD addProbeCPU.regs.a 0x08).2 = 0x10)
    ∧ (((0x08 : Nat) &&& 0xF) + ((0x08 : Nat) &&& 0xF) > 0xF) := by
  decide

/-- C5: `ADC` tests the 16-bit intermediate sum against zero. With
`a = 0xFF`, operand 1 and clear carry, the stored accumulator is 0, but
the code leaves Zero clear because the 16-bit sum `0x100` is nonzero
(carry is set as witnessed). -/
theorem adc_zero_flag_from_16bit_sum :
    ((adcProbeCPU.ADC 0x01).regs.a = 0)
    ∧ ((adcProbeCPU.ADC 0x01).regs.GetZero = 0)
    ∧ ((adcProbeCPU.ADC 0x01).regs.GetCarry = 1) := by
  decide

/-- C6: `WriteToStack16` decrements `SP` by exactly 2 (to `0xFFFC` from
`0xFFFE`), but stores nothing: the word then read at the new `SP` is the
stub `Read16`'s constant 0, not the pushed `0x1234`. -/
theorem push_decrements_sp_but_stores_nothing :
    ((zeroMemoryMap.WriteToStack16 0x1234 0xFFFE).2 = 0xFFFC)
    ∧ ((zeroMemoryMap.WriteToStack16 0x1234 0xFFFE).1.Read16 0xFFFC = 0)
    ∧ (0 : Nat) ≠ 0x1234 := by
  decide

/-- C7: the STOP effect moves the CPU to the stopped state, and a stopped
CPU's `Step` is the identity — no cycles consumed, no register, flag,
`PC`, `SP` or memory change. -/
theorem stop_then_step_is_noop :
    (∀ (stepInfo : OperandInfo) (cpu : CPU),
        STOP stepInfo cpu = some { cpu with stopped := true })
    ∧ (∀ cpu : CPU, cpu.stopped = true → Step cpu = some cpu) := by
  refine ⟨fun _ _ => rfl, fun cpu hstop => ?_⟩
  simp [Step, hstop]

/-- Witness for C7: a concrete stopped CPU steps to itself. -/
theorem stop_then_step_is_noop_witness :
    Step stoppedProbeCPU = some stoppedProbeCPU :=
  stop_then_step_is_noop.2 stoppedProbeCPU rfl

/-- C8: fetching any opcode in the zero-filled tail of the table
(0xC0–0xFF) does not panic: `Step` only advances `PC` by one and adds the
ticks-table cost of the opcode, leaving registers and memory otherwise
unchanged (the zero-length branch never calls the nil execute). -/
theorem undefined_opcode_is_noop (cpu : CPU) (op : Nat)
    (hrun : cpu.stopped = false)
    (hfetch : cpu.mem.Read8 cpu.regs.pc = .ok op)
    (hlo : 0xC0 ≤ op) (hhi : op ≤ 0xFF) :
    Step cpu = some { cpu with
      regs := { cpu.regs with pc := (cpu.regs.pc + 1) % 65536 },
      ticks := cpu.ticks + CreateTicks op } := by
  have htab : CreateTable op = zeroInstruction := createTable_zero_of_ge op (by omega)
  simp [Step, hrun, hfetch, htab, zeroInstruction]

/-- Witness for C8: a concrete CPU fetching opcode `0xC0`. -/
theorem undefined_opcode_is_noop_witness :
    Step undefOpcodeCPU = some { undefOpcodeCPU with
      regs := { undefOpcodeCPU.regs with
        pc := (undefOpcodeCPU.regs.pc + 1) % 65536 },
      ticks := undefOpcodeCPU.ticks + CreateTicks 0xC0 } :=
  undefined_opcode_is_noop undefOpcodeCPU 0xC0 rfl rfl (by decide) (by decide)

/-- A Go bounds-checked array read never raises the explicit
`"Invalid memory address"` panic: it yields a byte or an
index-out-of-range panic. -/
theorem arrayGet_ne_invalid (size : Nat) (arr : Nat → Nat) (i : Nat) :
    arrayGet size arr i ≠ .panicInvalidAddress := by
  unfold arrayGet
  by_cases h : i < size <;> simp [h]

/-- C9: the explicit `panic("Invalid memory address")` default of `Read8`
is indeed unreachable over the full 16-bit address space, but `Read8`
does not return a byte everywhere: at `0xF000` the echo branch indexes
`wram[0xF000 - 0xD000] = wram[0x2000]`, one past the end of the
8KB array — a runtime index-out-of-range panic. -/
theorem read8_invalid_unreachable_but_echo_overflows :
    (∀ (mem : MemoryMap) (address : Nat), address < 65536 →
        mem.Read8 address ≠ .panicInvalidAddress)
    ∧ zeroMemoryMap.Read8 0xF000 = .panicIndexOutOfRange := by
  constructor
  · intro mem address hlt
    unfold MemoryMap.Read8
    by_cases h1 : address < ROM_END
    · simp only [h1, if_true]; exact arrayGet_ne_invalid _ _ _
    by_cases h2 : address < VRAM_END
    · simp only [h1, h2, if_false, if_true]; exact arrayGet_ne_invalid _ _ _
    by_cases h3 : address < SRAM_END
    · simp only [h1, h2, h3, if_false, if_true]; exact arrayGet_ne_invalid _ _ _
    by_cases h4 : address < WRAM_END
    · simp only [h1, h2, h3, h4, if_false, if_true]
      exact arrayGet_ne_invalid _ _ _
    by_cases h5 : address < ECHO_END
    · simp only [h1, h2, h3, h4, h5, if_false, if_true]
      exact arrayGet_ne_invalid _ _ _
    by_cases h6 : address < OAM_END
    · simp only [h1, h2, h3, h4, h5, h6, if_false, if_true]
      exact arrayGet_ne_invalid _ _ _
    by_cases h7 : address < UNUSED_END
    · simp only [h1, h2, h3, h4, h5, h6, h7, if_false, if_true]; simp
    by_cases h8 : address < IO_END
    · simp only [h1, h2, h3, h4, h5, h6, h7, h8, if_false, if_true]
      exact arrayGet_ne_invalid _ _ _
    by_cases h9 : address < HRAM_END
    · simp only [h1, h2, h3, h4, h5, h6, h7, h8, h9, if_false, if_true]
      exact arrayGet_ne_invalid _ _ _
    have h10 : address = 0xFFFF := by
      unfold HRAM_END at h9
      omega
    simp only [h10]
    norm_num [ROM_END, VRAM_END, SRAM_END, WRAM_END, ECHO_END, OAM_END,
      UNUSED_END, IO_END, HRAM_END]
    simp
  · decide

/-- Witness for C9: the first conjunct applied at a concrete address. -/
theorem read8_invalid_unreachable_but_echo_overflows_witness :
    zeroMemoryMap.Read8 0x1234 ≠ .panicInvalidAddress :=
  read8_invalid_unreachable_but_echo_overflows.1 zeroMemoryMap 0x1234 (by decide)

/-! ## The flags-register invariant (claim C10)

`FlagsOK r` says the flags register holds a byte whose low nibble is
clear. Every flag setter and every ALU helper preserves it, and no
instruction writes `f` except through the setters. -/

/-- The flags register is a byte with a clear low nibble. -/
def FlagsOK (r : Registers) : Prop :=
  r.f < 256 ∧ r.f &&& 0xF = 0

theorem FlagsOK_SetZero (r : Registers) (v : Bool) (hOK : FlagsOK r) :
    FlagsOK (r.SetZero v) := by
  have hset : ∀ f, f < 256 → f &&& 0xF = 0 →
      (((f ||| 0x80) < 256 ∧ (f ||| 0x80) &&& 0xF = 0) ∧
       ((f &&& 0x7F) < 256 ∧ (f &&& 0x7F) &&& 0xF = 0)) := by decide
  cases v
  · exact (hset r.f hOK.1 hOK.2).2
  · exact (hset r.f hOK.1 hOK.2).1

theorem FlagsOK_SetSubtract (r : Registers) (v : Bool) (hOK : FlagsOK r) :
    FlagsOK (r.SetSubtract v) := by
  have hset : ∀ f, f < 256 → f &&& 0xF = 0 →
      (((f ||| 0x40) < 256 ∧ (f ||| 0x40) &&& 0xF = 0) ∧
       ((f &&& 0xBF) < 256 ∧ (f &&& 0xBF) &&& 0xF = 0)) := by decide
  cases v
  · exact (hset r.f hOK.1 hOK.2).2
  · exact (hset r.f hOK.1 hOK.2).1

theorem FlagsOK_SetHalfCarry (r : Registers) (v : Bool) (hOK : FlagsOK r) :
    FlagsOK (r.SetHalfCarry v) := by
  have hset : ∀ f, f < 256 → f &&& 0xF = 0 →
      (((f ||| 0x20) < 256 ∧ (f ||| 0x20) &&& 0xF = 0) ∧
       ((f &&& 0xDF) < 256 ∧ (f &&& 0xDF) &&& 0xF = 0)) := by decide
  cases v
  · exact (hset r.f hOK.1 hOK.2).2
  · exact (hset r.f hOK.1 hOK.2).1

theorem FlagsOK_SetCarry (r : Registers) (v : Bool) (hOK : FlagsOK r) :
    FlagsOK (r.SetCarry v) := by
  have hset : ∀ f, f < 256 → f &&& 0xF = 0 →
      (((f ||| 0x10) < 256 ∧ (f ||| 0x10) &&& 0xF = 0) ∧
       ((f &&& 0xEF) < 256 ∧ (f &&& 0xEF) &&& 0xF = 0)) := by decide
  cases v
  · exact (hset r.f hOK.1 hOK.2).2
  · exact (hset r.f hOK.1 hOK.2).1

theorem FlagsOK_ADD (cpu : CPU) (x v : Nat) (hOK : FlagsOK cpu.regs) :
    FlagsOK (cpu.ADD x v).1.regs := by
  unfold CPU.ADD
  exact FlagsOK_SetSubtract _ _ (FlagsOK_SetHalfCarry _ _
    (FlagsOK_SetZero _ _ (FlagsOK_SetCarry _ _ hOK)))

theorem FlagsOK_ADC (cpu : CPU) (v : Nat) (hOK : FlagsOK cpu.regs) :
    FlagsOK (cpu.ADC v).regs := by
  unfold CPU.ADC
  exact FlagsOK_SetCarry _ _ (FlagsOK_SetHalfCarry _ _
    (FlagsOK_SetSubtract _ _ (FlagsOK_SetZero _ _ hOK)))

theorem FlagsOK_SUB (cpu : CPU) (v : Nat) (hOK : FlagsOK cpu.regs) :
    FlagsOK (cpu.SUB v).regs := by
  unfold CPU.SUB
  exact FlagsOK_SetZero _ _ (FlagsOK_SetSubtract _ _
    (FlagsOK_SetHalfCarry _ _ (FlagsOK_SetCarry _ _ hOK)))

theorem FlagsOK_SBC (cpu : CPU) (v : Nat) (hOK : FlagsOK cpu.regs) :
    FlagsOK (cpu.SBC v).regs := by
  unfold CPU.SBC
  exact FlagsOK_SetZero _ _ (FlagsOK_SetSubtract _ _
    (FlagsOK_SetHalfCarry _ _ (FlagsOK_SetCarry _ _ hOK)))

theorem FlagsOK_AND (cpu : CPU) (v : Nat) (hOK : FlagsOK cpu.regs) :
    FlagsOK (cpu.AND v).regs := by
  unfold CPU.AND
  exact FlagsOK_SetCarry _ _ (FlagsOK_SetHalfCarry _ _
    (FlagsOK_SetSubtract _ _ (FlagsOK_SetZero _ _ hOK)))

theorem FlagsOK_OR (cpu : CPU) (v : Nat) (hOK : FlagsOK cpu.regs) :
    FlagsOK (cpu.OR v).regs := by
  unfold CPU.OR
  exact FlagsOK_SetCarry _ _ (FlagsOK_SetHalfCarry _ _
    (FlagsOK_SetSubtract _ _ (FlagsOK_SetZero _ _ hOK)))

theorem FlagsOK_XOR (cpu : CPU) (v : Nat) (hOK : FlagsOK cpu.regs) :
    FlagsOK (cpu.XOR v).regs := by
  unfold CPU.XOR
  exact FlagsOK_SetCarry _ _ (FlagsOK_SetHalfCarry _ _
    (FlagsOK_SetSubtract _ _ (FlagsOK_SetZero _ _ hOK)))

theorem FlagsOK_CP (cpu : CPU) (v : Nat) (hOK : FlagsOK cpu.regs) :
    FlagsOK (cpu.CP v).regs := by
  unfold CPU.CP
  exact FlagsOK_SetSubtract _ _ (FlagsOK_SetHalfCarry _ _
    (FlagsOK_SetCarry _ _ (FlagsOK_SetZero _ _ hOK)))

theorem FlagsOK_INC (cpu : CPU) (v : Nat) (hOK : FlagsOK cpu.regs) :
    FlagsOK (cpu.INC v).1.regs := by
  unfold CPU.INC
  exact FlagsOK_SetZero _ _ (FlagsOK_SetSubtract _ _
    (FlagsOK_SetHalfCarry _ _ hOK))

theorem FlagsOK_DEC (cpu : CPU) (v : Nat) (hOK : FlagsOK cpu.regs) :
    FlagsOK (cpu.DEC v).1.regs := by
  unfold CPU.DEC
  exact FlagsOK_SetZero _ _ (FlagsOK_SetSubtract _ _
    (FlagsOK_SetHalfCarry _ _ hOK))

/-- An execute effect preserves the flags invariant on every successful
run. -/
def PreservesFlags (exec : OperandInfo → CPU → Option CPU) : Prop :=
  ∀ (oi : OperandInfo) (c c2 : CPU),
    exec oi c = some c2 → FlagsOK c.regs → FlagsOK c2.regs

theorem preservesFlags_zeroInstruction :
    PreservesFlags zeroInstruction.execute := by
  intro oi c c2 hstep hOK
  exact Option.noConfusion hstep

/-! ## Per-opcode preservation of the flags invariant -/

theorem pres_NOP : PreservesFlags NOP := by
  intro oi c c2 hstep hOK
  unfold NOP at hstep
  injection hstep with h2
  subst h2
  exact And.intro hOK.1 hOK.2

theorem pres_LD_BC_d16 : PreservesFlags LD_BC_d16 := by
  intro oi c c2 hstep hOK
  unfold LD_BC_d16 at hstep
  injection hstep with h2
  subst h2
  exact And.intro hOK.1 hOK.2

theorem pres_INC_BC : PreservesFlags INC_BC := by
  intro oi c c2 hstep hOK
  unfold INC_BC at hstep
  injection hstep with h2
  subst h2
  exact And.intro hOK.1 hOK.2

theorem pres_LD_B_d8 : PreservesFlags LD_B_d8 := by
  intro oi c c2 hstep hOK
  unfold LD_B_d8 at hstep
  injection hstep with h2
  subst h2
  exact And.intro hOK.1 hOK.2

theorem pres_LD_a16_SP : PreservesFlags LD_a16_SP := by
  intro oi c c2 hstep hOK
  unfold LD_a16_SP at hstep
  injection hstep with h2
  subst h2
  exact And.intro hOK.1 hOK.2

theorem pres_ADD_HL_BC : PreservesFlags ADD_HL_BC := by
  intro oi c c2 hstep hOK
  unfold ADD_HL_BC at hstep
  injection hstep with h2
  subst h2
  exact And.intro hOK.1 hOK.2

theorem pres_DEC_BC : PreservesFlags DEC_BC := by
  intro oi c c2 hstep hOK
  unfold DEC_BC at hstep
  injection hstep with h2
  subst h2
  exact And.intro hOK.1 hOK.2

theorem pres_LD_C_d8 : PreservesFlags LD_C_d8 := by
  intro oi c c2 hstep hOK
  unfold LD_C_d8 at hstep
  injection hstep with h2
  subst h2
  exact And.intro hOK.1 hOK.2

theorem pres_STOP : PreservesFlags STOP := by
  intro oi c c2 hstep hOK
  unfold STOP at hstep
  injection hstep with h2
  subst h2
  exact And.intro hOK.1 hOK.2

theorem pres_LD_DE_d16 : PreservesFlags LD_DE_d16 := by
  intro oi c c2 hstep hOK
  unfold LD_DE_d16 at hstep
  injection hstep with h2
  subst h2
  exact And.intro hOK.1 hOK.2

theorem pres_INC_DE : PreservesFlags INC_DE := by
  intro oi c c2 hstep hOK
  unfold INC_DE at hstep
  injection hstep with h2
  subst h2
  exact And.intro hOK.1 hOK.2

theorem pres_LD_D_d8 : PreservesFlags LD_D_d8 := by
  intro oi c c2 hstep hOK
  unfold LD_D_d8 at hstep
  injection hstep with h2
  subst h2
  exact And.intro hOK.1 hOK.2

theorem pres_JR_r8 : PreservesFlags JR_r8 := by
  intro oi c c2 hstep hOK
  unfold JR_r8 at hstep
  injection hstep with h2
  subst h2
  exact And.intro hOK.1 hOK.2

theorem pres_ADD_HL_DE : PreservesFlags ADD_HL_DE := by
  intro oi c c2 hstep hOK
  unfold ADD_HL_DE at hstep
  injection hstep with h2
  subst h2
  exact And.intro hOK.1 hOK.2

theorem pres_DEC_DE : PreservesFlags DEC_DE := by
  intro oi c c2 hstep hOK
  unfold DEC_DE at hstep
  injection hstep with h2
  subst h2
  exact And.intro hOK.1 hOK.2

theorem pres_LD_E_d8 : PreservesFlags LD_E_d8 := by
  intro oi c c2 hstep hOK
  unfold LD_E_d8 at hstep
  injection hstep with h2
  subst h2
  exact And.intro hOK.1 hOK.2

theorem pres_RRA : PreservesFlags RRA := by
  intro oi c c2 hstep hOK
  unfold RRA at hstep
  injection hstep with h2
  subst h2
  exact And.intro hOK.1 hOK.2

theorem pres_LD_HL_d16 : PreservesFlags LD_HL_d16 := by
  intro oi c c2 hstep hOK
  unfold LD_HL_d16 at hstep
  injection hstep with h2
  subst h2
  exact And.intro hOK.1 hOK.2

theorem pres_INC_HL : PreservesFlags INC_HL := by
  intro oi c c2 hstep hOK
  unfold INC_HL at hstep
  injection hstep with h2
  subst h2
  exact And.intro hOK.1 hOK.2

theorem pres_LD_H_d8 : PreservesFlags LD_H_d8 := by
  intro oi c c2 hstep hOK
  unfold LD_H_d8 at hstep
  injection hstep with h2
  subst h2
  exact And.intro hOK.1 hOK.2

theorem pres_DAA : PreservesFlags DAA := by
  intro oi c c2 hstep hOK
  unfold DAA at hstep
  injection hstep with h2
  subst h2
  exact And.intro hOK.1 hOK.2

theorem pres_JR_Z_r8 : PreservesFlags JR_Z_r8 := by
  intro oi c c2 hstep hOK
  unfold JR_Z_r8 at hstep
  injection hstep with h2
  subst h2
  exact And.intro hOK.1 hOK.2

theorem pres_ADD_HL_HL : PreservesFlags ADD_HL_HL := by
  intro oi c c2 hstep hOK
  unfold ADD_HL_HL at hstep
  injection hstep with h2
  subst h2
  exact And.intro hOK.1 hOK.2

theorem pres_DEC_HL : PreservesFlags DEC_HL := by
  intro oi c c2 hstep hOK
  unfold DEC_HL at hstep
  injection hstep with h2
  subst h2
  exact And.intro hOK.1 hOK.2

theorem pres_LD_L_d8 : PreservesFlags LD_L_d8 := by
  intro oi c c2 hstep hOK
  unfold LD_L_d8 at hstep
  injection hstep with h2
  subst h2
  exact And.intro hOK.1 hOK.2

theorem pres_CPL : PreservesFlags CPL := by
  intro oi c c2 hstep hOK
  unfold CPL at hstep
  injection hstep with h2
  subst h2
  exact And.intro hOK.1 hOK.2

theorem pres_JR_NC_r8 : PreservesFlags JR_NC_r8 := by
  intro oi c c2 hstep hOK
  unfold JR_NC_r8 at hstep
  injection hstep with h2
  subst h2
  exact And.intro hOK.1 hOK.2

theorem pres_LD_SP_d16 : PreservesFlags LD_SP_d16 := by
  intro oi c c2 hstep hOK
  unfold LD_SP_d16 at hstep
  injection hstep with h2
  subst h2
  exact And.intro hOK.1 hOK.2

theorem pres_INC_SP : PreservesFlags INC_SP := by
  intro oi c c2 hstep hOK
  unfold INC_SP at hstep
  injection hstep with h2
  subst h2
  exact And.intro hOK.1 hOK.2

theorem pres_JR_C_r8 : PreservesFlags JR_C_r8 := by
  intro oi c c2 hstep hOK
  unfold JR_C_r8 at hstep
  injection hstep with h2
  subst h2
  exact And.intro hOK.1 hOK.2

theorem pres_ADD_HL_SP : PreservesFlags ADD_HL_SP := by
  intro oi c c2 hstep hOK
  unfold ADD_HL_SP at hstep
  injection hstep with h2
  subst h2
  exact And.intro hOK.1 hOK.2

theorem pres_DEC_SP : PreservesFlags DEC_SP := by
  intro oi c c2 hstep hOK
  unfold DEC_SP at hstep
  injection hstep with h2
  subst h2
  exact And.intro hOK.1 hOK.2

theorem pres_LD_A_d8 : PreservesFlags LD_A_d8 := by
  intro oi c c2 hstep hOK
  unfold LD_A_d8 at hstep
  injection hstep with h2
  subst h2
  exact And.intro hOK.1 hOK.2

theorem pres_CCF : PreservesFlags CCF := by
  intro oi c c2 hstep hOK
  unfold CCF at hstep
  injection hstep with h2
  subst h2
  exact And.intro hOK.1 hOK.2

theorem pres_HALT : PreservesFlags HALT := by
  intro oi c c2 hstep hOK
  unfold HALT at hstep
  injection hstep with h2
  subst h2
  exact And.intro hOK.1 hOK.2

theorem pres_LD_B_B : PreservesFlags LD_B_B := by
  intro oi c c2 hstep hOK
  unfold LD_B_B at hstep
  injection hstep with h2
  subst h2
  exact And.intro hOK.1 hOK.2

theorem pres_LD_B_C : PreservesFlags LD_B_C := by
  intro oi c c2 hstep hOK
  unfold LD_B_C at hstep
  injection hstep with h2
  subst h2
  exact And.intro hOK.1 hOK.2

theorem pres_LD_B_D : PreservesFlags LD_B_D := by
  intro oi c c2 hstep hOK
  unfold LD_B_D at hstep
  injection hstep with h2
  subst h2
  exact And.intro hOK.1 hOK.2

theorem pres_LD_B_E : PreservesFlags LD_B_E := by
  intro oi c c2 hstep hOK
  unfold LD_B_E at hstep
  injection hstep with h2
  subst h2
  exact And.intro hOK.1 hOK.2

theorem pres_LD_B_H : PreservesFlags LD_B_H := by
  intro oi c c2 hstep hOK
  unfold LD_B_H at hstep
  injection hstep with h2
  subst h2
  exact And.intro hOK.1 hOK.2

theorem pres_LD_B_L : PreservesFlags LD_B_L := by
  intro oi c c2 hstep hOK
  unfold LD_B_L at hstep
  injection hstep with h2
  subst h2
  exact And.intro hOK.1 hOK.2

theorem pres_LD_B_A : PreservesFlags LD_B_A := by
  intro oi c c2 hstep hOK
  unfold LD_B_A at hstep
  injection hstep with h2
  subst h2
  exact And.intro hOK.1 hOK.2

theorem pres_LD_C_B : PreservesFlags LD_C_B := by
  intro oi c c2 hstep hOK
  unfold LD_C_B at hstep
  injection hstep with h2
  subst h2
  exact And.intro hOK.1 hOK.2

theorem pres_LD_C_C : PreservesFlags LD_C_C := by
  intro oi c c2 hstep hOK
  unfold LD_C_C at hstep
  injection hstep with h2
  subst h2
  exact And.intro hOK.1 hOK.2

theorem pres_LD_C_D : PreservesFlags LD_C_D := by
  intro oi c c2 hstep hOK
  unfold LD_C_D at hstep
  injection hstep with h2
  subst h2
  exact And.intro hOK.1 hOK.2

theorem pres_LD_C_E : PreservesFlags LD_C_E := by
  intro oi c c2 hstep hOK
  unfold LD_C_E at hstep
  injection hstep with h2
  subst h2
  exact And.intro hOK.1 hOK.2

theorem pres_LD_C_H : PreservesFlags LD_C_H := by
  intro oi c c2 hstep hOK
  unfold LD_C_H at hstep
  injection hstep with h2
  subst h2
  exact And.intro hOK.1 hOK.2

theorem pres_LD_C_L : PreservesFlags LD_C_L := by
  intro oi c c2 hstep hOK
  unfold LD_C_L at hstep
  injection hstep with h2
  subst h2
  exact And.intro hOK.1 hOK.2

theorem pres_LD_C_A : PreservesFlags LD_C_A := by
  intro oi c c2 hstep hOK
  unfold LD_C_A at hstep
  injection hstep with h2
  subst h2
  exact And.intro hOK.1 hOK.2

theorem pres_LD_D_B : PreservesFlags LD_D_B := by
  intro oi c c2 hstep hOK
  unfold LD_D_B at hstep
  injection hstep with h2
  subst h2
  exact And.intro hOK.1 hOK.2

theorem pres_LD_D_C : PreservesFlags LD_D_C := by
  intro oi c c2 hstep hOK
  unfold LD_D_C at hstep
  injection hstep with h2
  subst h2
  exact And.intro hOK.1 hOK.2

theorem pres_LD_D_D : PreservesFlags LD_D_D := by
  intro oi c c2 hstep hOK
  unfold LD_D_D at hstep
  injection hstep with h2
  subst h2
  exact And.intro hOK.1 hOK.2

theorem pres_LD_D_E : PreservesFlags LD_D_E := by
  intro oi c c2 hstep hOK
  unfold LD_D_E at hstep
  injection hstep with h2
  subst h2
  exact And.intro hOK.1 hOK.2

theorem pres_LD_D_H : PreservesFlags LD_D_H := by
  intro oi c c2 hstep hOK
  unfold LD_D_H at hstep
  injection hstep with h2
  subst h2
  exact And.intro hOK.1 hOK.2

theorem pres_LD_D_L : PreservesFlags LD_D_L := by
  intro oi c c2 hstep hOK
  unfold LD_D_L at hstep
  injection hstep with h2
  subst h2
  exact And.intro hOK.1 hOK.2

theorem pres_LD_D_A : PreservesFlags LD_D_A := by
  intro oi c c2 hstep hOK
  unfold LD_D_A at hstep
  injection hstep with h2
  subst h2
  exact And.intro hOK.1 hOK.2

theorem pres_LD_E_B : PreservesFlags LD_E_B := by
  intro oi c c2 hstep hOK
  unfold LD_E_B at hstep
  injection hstep with h2
  subst h2
  exact And.intro hOK.1 hOK.2

theorem pres_LD_E_C : PreservesFlags LD_E_C := by
  intro oi c c2 hstep hOK
  unfold LD_E_C at hstep
  injection hstep with h2
  subst h2
  exact And.intro hOK.1 hOK.2

theorem pres_LD_E_D : PreservesFlags LD_E_D := by
  intro oi c c2 hstep hOK
  unfold LD_E_D at hstep
  injection hstep with h2
  subst h2
  exact And.intro hOK.1 hOK.2

theorem pres_LD_E_E : PreservesFlags LD_E_E := by
  intro oi c c2 hstep hOK
  unfold LD_E_E at hstep
  injection hstep with h2
  subst h2
  exact And.intro hOK.1 hOK.2

theorem pres_LD_E_H : PreservesFlags LD_E_H := by
  intro oi c c2 hstep hOK
  unfold LD_E_H at hstep
  injection hstep with h2
  subst h2
  exact And.intro hOK.1 hOK.2

theorem pres_LD_E_L : PreservesFlags LD_E_L := by
  intro oi c c2 hstep hOK
  unfold LD_E_L at hstep
  injection hstep with h2
  subst h2
  exact And.intro hOK.1 hOK.2

theorem pres_LD_E_A : PreservesFlags LD_E_A := by
  intro oi c c2 hstep hOK
  unfold LD_E_A at hstep
  injection hstep with h2
  subst h2
  exact And.intro hOK.1 hOK.2

theorem pres_LD_H_B : PreservesFlags LD_H_B := by
  intro oi c c2 hstep hOK
  unfold LD_H_B at hstep
  injection hstep with h2
  subst h2
  exact And.intro hOK.1 hOK.2

theorem pres_LD_H_C : PreservesFlags LD_H_C := by
  intro oi c c2 hstep hOK
  unfold LD_H_C at hstep
  injection hstep with h2
  subst h2
  exact And.intro hOK.1 hOK.2

theorem pres_LD_H_D : PreservesFlags LD_H_D := by
  intro oi c c2 hstep hOK
  unfold LD_H_D at hstep
  injection hstep with h2
  subst h2
  exact And.intro hOK.1 hOK.2

theorem pres_LD_H_E : PreservesFlags LD_H_E := by
  intro oi c c2 hstep hOK
  unfold LD_H_E at hstep
  injection hstep with h2
  subst h2
  exact And.intro hOK.1 hOK.2

theorem pres_LD_H_H : PreservesFlags LD_H_H := by
  intro oi c c2 hstep hOK
  unfold LD_H_H at hstep
  injection hstep with h2
  subst h2
  exact And.intro hOK.1 hOK.2

theorem pres_LD_H_L : PreservesFlags LD_H_L := by
  intro oi c c2 hstep hOK
  unfold LD_H_L at hstep
  injection hstep with h2
  subst h2
  exact And.intro hOK.1 hOK.2

theorem pres_LD_H_A : PreservesFlags LD_H_A := by
  intro oi c c2 hstep hOK
  unfold LD_H_A at hstep
  injection hstep with h2
  subst h2
  exact And.intro hOK.1 hOK.2

theorem pres_LD_L_B : PreservesFlags LD_L_B := by
  intro oi c c2 hstep hOK
  unfold LD_L_B at hstep
  injection hstep with h2
  subst h2
  exact And.intro hOK.1 hOK.2

theorem pres_LD_L_C : PreservesFlags LD_L_C := by
  intro oi c c2 hstep hOK
  unfold LD_L_C at hstep
  injection hstep with h2
  subst h2
  exact And.intro hOK.1 hOK.2

theorem pres_LD_L_D : PreservesFlags LD_L_D := by
  intro oi c c2 hstep hOK
  unfold LD_L_D at hstep
  injection hstep with h2
  subst h2
  exact And.intro hOK.1 hOK.2

theorem pres_LD_L_E : PreservesFlags LD_L_E := by
  intro oi c c2 hstep hOK
  unfold LD_L_E at hstep
  injection hstep with h2
  subst h2
  exact And.intro hOK.1 hOK.2

theorem pres_LD_L_H : PreservesFlags LD_L_H := by
  intro oi c c2 hstep hOK
  unfold LD_L_H at hstep
  injection hstep with h2
  subst h2
  exact And.intro hOK.1 hOK.2

theorem pres_LD_L_L : PreservesFlags LD_L_L := by
  intro oi c c2 hstep hOK
  unfold LD_L_L at hstep
  injection hstep with h2
  subst h2
  exact And.intro hOK.1 hOK.2

theorem pres_LD_L_A : PreservesFlags LD_L_A := by
  intro oi c c2 hstep hOK
  unfold LD_L_A at hstep
  injection hstep with h2
  subst h2
  exact And.intro hOK.1 hOK.2

theorem pres_LD_A_B : PreservesFlags LD_A_B := by
  intro oi c c2 hstep hOK
  unfold LD_A_B at hstep
  injection hstep with h2
  subst h2
  exact And.intro hOK.1 hOK.2

theorem pres_LD_A_C : PreservesFlags LD_A_C := by
  intro oi c c2 hstep hOK
  unfold LD_A_C at hstep
  injection hstep with h2
  subst h2
  exact And.intro hOK.1 hOK.2

theorem pres_LD_A_D : PreservesFlags LD_A_D := by
  intro oi c c2 hstep hOK
  unfold LD_A_D at hstep
  injection hstep with h2
  subst h2
  exact And.intro hOK.1 hOK.2

theorem pres_LD_A_E : PreservesFlags LD_A_E := by
  intro oi c c2 hstep hOK
  unfold LD_A_E at hstep
  injection hstep with h2
  subst h2
  exact And.intro hOK.1 hOK.2

theorem pres_LD_A_H : PreservesFlags LD_A_H := by
  intro oi c c2 hstep hOK
  unfold LD_A_H at hstep
  injection hstep with h2
  subst h2
  exact And.intro hOK.1 hOK.2

theorem pres_LD_A_L : PreservesFlags LD_A_L := by
  intro oi c c2 hstep hOK
  unfold LD_A_L at hstep
  injection hstep with h2
  subst h2
  exact And.intro hOK.1 hOK.2

theorem pres_LD_A_A : PreservesFlags LD_A_A := by
  intro oi c c2 hstep hOK
  unfold LD_A_A at hstep
  injection hstep with h2
  subst h2
  exact And.intro hOK.1 hOK.2

theorem pres_RLCA : PreservesFlags RLCA := by
  intro oi c c2 hstep hOK
  unfold RLCA at hstep
  injection hstep with h2
  subst h2
  apply FlagsOK_SetCarry
  apply FlagsOK_SetHalfCarry
  apply FlagsOK_SetSubtract
  apply FlagsOK_SetZero
  exact And.intro hOK.1 hOK.2

theorem pres_RRCA : PreservesFlags RRCA := by
  intro oi c c2 hstep hOK
  unfold RRCA at hstep
  injection hstep with h2
  subst h2
  apply FlagsOK_SetHalfCarry
  apply FlagsOK_SetSubtract
  apply FlagsOK_SetZero
  apply FlagsOK_SetCarry
  exact And.intro hOK.1 hOK.2

theorem pres_RLA : PreservesFlags RLA := by
  intro oi c c2 hstep hOK
  unfold RLA at hstep
  injection hstep with h2
  subst h2
  apply FlagsOK_SetHalfCarry
  apply FlagsOK_SetSubtract
  apply FlagsOK_SetZero
  apply FlagsOK_SetCarry
  exact And.intro hOK.1 hOK.2

theorem pres_SCF : PreservesFlags SCF := by
  intro oi c c2 hstep hOK
  unfold SCF at hstep
  injection hstep with h2
  subst h2
  apply FlagsOK_SetHalfCarry
  apply FlagsOK_SetZero
  apply FlagsOK_SetCarry
  exact And.intro hOK.1 hOK.2

theorem pres_JR_NZ_r8 : PreservesFlags JR_NZ_r8 := by
  intro oi c c2 hstep hOK
  unfold JR_NZ_r8 at hstep
  split at hstep
  · injection hstep with h2
    subst h2
    exact And.intro hOK.1 hOK.2
  · injection hstep with h2
    subst h2
    exact And.intro hOK.1 hOK.2

theorem pres_INC_B : PreservesFlags INC_B := by
  intro oi c c2 hstep hOK
  unfold INC_B at hstep
  injection hstep with h2
  subst h2
  exact And.intro (FlagsOK_INC c c.regs.b hOK).1 (FlagsOK_INC c c.regs.b hOK).2

theorem pres_DEC_B : PreservesFlags DEC_B := by
  intro oi c c2 hstep hOK
  unfold DEC_B at hstep
  injection hstep with h2
  subst h2
  exact And.intro (FlagsOK_DEC c c.regs.b hOK).1 (FlagsOK_DEC c c.regs.b hOK).2

theorem pres_INC_C : PreservesFlags INC_C := by
  intro oi c c2 hstep hOK
  unfold INC_C at hstep
  injection hstep with h2
  subst h2
  exact And.intro (FlagsOK_INC c c.regs.c hOK).1 (FlagsOK_INC c c.regs.c hOK).2

theorem pres_DEC_C : PreservesFlags DEC_C := by
  intro oi c c2 hstep hOK
  unfold DEC_C at hstep
  injection hstep with h2
  subst h2
  exact And.intro (FlagsOK_DEC c c.regs.c hOK).1 (FlagsOK_DEC c c.regs.c hOK).2

theorem pres_INC_D : PreservesFlags INC_D := by
  intro oi c c2 hstep hOK
  unfold INC_D at hstep
  injection hstep with h2
  subst h2
  exact And.intro (FlagsOK_INC c c.regs.d hOK).1 (FlagsOK_INC c c.regs.d hOK).2

theorem pres_DEC_D : PreservesFlags DEC_D := by
  intro oi c c2 hstep hOK
  unfold DEC_D at hstep
  injection hstep with h2
  subst h2
  exact And.intro (FlagsOK_DEC c c.regs.d hOK).1 (FlagsOK_DEC c c.regs.d hOK).2

theorem pres_INC_E : PreservesFlags INC_E := by
  intro oi c c2 hstep hOK
  unfold INC_E at hstep
  injection hstep with h2
  subst h2
  exact And.intro (FlagsOK_INC c c.regs.e hOK).1 (FlagsOK_INC c c.regs.e hOK).2

theorem pres_DEC_E : PreservesFlags DEC_E := by
  intro oi c c2 hstep hOK
  unfold DEC_E at hstep
  injection hstep with h2
  subst h2
  exact And.intro (FlagsOK_DEC c c.regs.e hOK).1 (FlagsOK_DEC c c.regs.e hOK).2

theorem pres_INC_H : PreservesFlags INC_H := by
  intro oi c c2 hstep hOK
  unfold INC_H at hstep
  injection hstep with h2
  subst h2
  exact And.intro (FlagsOK_INC c c.regs.h hOK).1 (FlagsOK_INC c c.regs.h hOK).2

theorem pres_DEC_H : PreservesFlags DEC_H := by
  intro oi c c2 hstep hOK
  unfold DEC_H at hstep
  injection hstep with h2
  subst h2
  exact And.intro (FlagsOK_DEC c c.regs.h hOK).1 (FlagsOK_DEC c c.regs.h hOK).2

theorem pres_INC_L : PreservesFlags INC_L := by
  intro oi c c2 hstep hOK
  unfold INC_L at hstep
  injection hstep with h2
  subst h2
  exact And.intro (FlagsOK_INC c c.regs.l hOK).1 (FlagsOK_INC c c.regs.l hOK).2

theorem pres_DEC_L : PreservesFlags DEC_L := by
  intro oi c c2 hstep hOK
  unfold DEC_L at hstep
  injection hstep with h2
  subst h2
  exact And.intro (FlagsOK_DEC c c.regs.l hOK).1 (FlagsOK_DEC c c.regs.l hOK).2

theorem pres_INC_A : PreservesFlags INC_A := by
  intro oi c c2 hstep hOK
  unfold INC_A at hstep
  injection hstep with h2
  subst h2
  exact And.intro (FlagsOK_INC c c.regs.a hOK).1 (FlagsOK_INC c c.regs.a hOK).2

theorem pres_DEC_A : PreservesFlags DEC_A := by
  intro oi c c2 hstep hOK
  unfold DEC_A at hstep
  injection hstep with h2
  subst h2
  exact And.intro (FlagsOK_DEC c c.regs.a hOK).1 (FlagsOK_DEC c c.regs.a hOK).2

theorem pres_ADD_A_B : PreservesFlags ADD_A_B := by
  intro oi c c2 hstep hOK
  unfold ADD_A_B at hstep
  injection hstep with h2
  subst h2
  exact And.intro (FlagsOK_ADD c c.regs.a c.regs.b hOK).1 (FlagsOK_ADD c c.regs.a c.regs.b hOK).2

theorem pres_ADC_A_B : PreservesFlags ADC_A_B := by
  intro oi c c2 hstep hOK
  unfold ADC_A_B at hstep
  injection hstep with h2
  subst h2
  exact And.intro (FlagsOK_ADC c c.regs.b hOK).1 (FlagsOK_ADC c c.regs.b hOK).2

theorem pres_SUB_B : PreservesFlags SUB_B := by
  intro oi c c2 hstep hOK
  unfold SUB_B at hstep
  injection hstep with h2
  subst h2
  exact And.intro (FlagsOK_SUB c c.regs.b hOK).1 (FlagsOK_SUB c c.regs.b hOK).2

theorem pres_SBC_A_B : PreservesFlags SBC_A_B := by
  intro oi c c2 hstep hOK
  unfold SBC_A_B at hstep
  injection hstep with h2
  subst h2
  exact And.intro (FlagsOK_SBC c c.regs.b hOK).1 (FlagsOK_SBC c c.regs.b hOK).2

theorem pres_AND_B : PreservesFlags AND_B := by
  intro oi c c2 hstep hOK
  unfold AND_B at hstep
  injection hstep with h2
  subst h2
  exact And.intro (FlagsOK_AND c c.regs.b hOK).1 (FlagsOK_AND c c.regs.b hOK).2

theorem pres_XOR_B : PreservesFlags XOR_B := by
  intro oi c c2 hstep hOK
  unfold XOR_B at hstep
  injection hstep with h2
  subst h2
  exact And.intro (FlagsOK_XOR c c.regs.b hOK).1 (FlagsOK_XOR c c.regs.b hOK).2

theorem pres_OR_B : PreservesFlags OR_B := by
  intro oi c c2 hstep hOK
  unfold OR_B at hstep
  injection hstep with h2
  subst h2
  exact And.intro (FlagsOK_OR c c.regs.b hOK).1 (FlagsOK_OR c c.regs.b hOK).2

theorem pres_CP_B : PreservesFlags CP_B := by
  intro oi c c2 hstep hOK
  unfold CP_B at hstep
  injection hstep with h2
  subst h2
  exact And.intro (FlagsOK_CP c c.regs.b hOK).1 (FlagsOK_CP c c.regs.b hOK).2

theorem pres_ADD_A_C : PreservesFlags ADD_A_C := by
  intro oi c c2 hstep hOK
  unfold ADD_A_C at hstep
  injection hstep with h2
  subst h2
  exact And.intro (FlagsOK_ADD c c.regs.a c.regs.c hOK).1 (FlagsOK_ADD c c.regs.a c.regs.c hOK).2

theorem pres_ADC_A_C : PreservesFlags ADC_A_C := by
  intro oi c c2 hstep hOK
  unfold ADC_A_C at hstep
  injection hstep with h2
  subst h2
  exact And.intro (FlagsOK_ADC c c.regs.c hOK).1 (FlagsOK_ADC c c.regs.c hOK).2

theorem pres_SUB_C : PreservesFlags SUB_C := by
  intro oi c c2 hstep hOK
  unfold SUB_C at hstep
  injection hstep with h2
  subst h2
  exact And.intro (FlagsOK_SUB c c.regs.c hOK).1 (FlagsOK_SUB c c.regs.c hOK).2

theorem pres_SBC_A_C : PreservesFlags SBC_A_C := by
  intro oi c c2 hstep hOK
  unfold SBC_A_C at hstep
  injection hstep with h2
  subst h2
  exact And.intro (FlagsOK_SBC c c.regs.c hOK).1 (FlagsOK_SBC c c.regs.c hOK).2

theorem pres_AND_C : PreservesFlags AND_C := by
  intro oi c c2 hstep hOK
  unfold AND_C at hstep
  injection hstep with h2
  subst h2
  exact And.intro (FlagsOK_AND c c.regs.c hOK).1 (FlagsOK_AND c c.regs.c hOK).2

theorem pres_XOR_C : PreservesFlags XOR_C := by
  intro oi c c2 hstep hOK
  unfold XOR_C at hstep
  injection hstep with h2
  subst h2
  exact And.intro (FlagsOK_XOR c c.regs.c hOK).1 (FlagsOK_XOR c c.regs.c hOK).2

theorem pres_OR_C : PreservesFlags OR_C := by
  intro oi c c2 hstep hOK
  unfold OR_C at hstep
  injection hstep with h2
  subst h2
  exact And.intro (FlagsOK_OR c c.regs.c hOK).1 (FlagsOK_OR c c.regs.c hOK).2

theorem pres_CP_C : PreservesFlags CP_C := by
  intro oi c c2 hstep hOK
  unfold CP_C at hstep
  injection hstep with h2
  subst h2
  exact And.intro (FlagsOK_CP c c.regs.c hOK).1 (FlagsOK_CP c c.regs.c hOK).2

theorem pres_ADD_A_D : PreservesFlags ADD_A_D := by
  intro oi c c2 hstep hOK
  unfold ADD_A_D at hstep
  injection hstep with h2
  subst h2
  exact And.intro (FlagsOK_ADD c c.regs.a c.regs.d hOK).1 (FlagsOK_ADD c c.regs.a c.regs.d hOK).2

theorem pres_ADC_A_D : PreservesFlags ADC_A_D := by
  intro oi c c2 hstep hOK
  unfold ADC_A_D at hstep
  injection hstep with h2
  subst h2
  exact And.intro (FlagsOK_ADC c c.regs.d hOK).1 (FlagsOK_ADC c c.regs.d hOK).2

theorem pres_SUB_D : PreservesFlags SUB_D := by
  intro oi c c2 hstep hOK
  unfold SUB_D at hstep
  injection hstep with h2
  subst h2
  exact And.intro (FlagsOK_SUB c c.regs.d hOK).1 (FlagsOK_SUB c c.regs.d hOK).2

theorem pres_SBC_A_D : PreservesFlags SBC_A_D := by
  intro oi c c2 hstep hOK
  unfold SBC_A_D at hstep
  injection hstep with h2
  subst h2
  exact And.intro (FlagsOK_SBC c c.regs.d hOK).1 (FlagsOK_SBC c c.regs.d hOK).2

theorem pres_AND_D : PreservesFlags AND_D := by
  intro oi c c2 hstep hOK
  unfold AND_D at hstep
  injection hstep with h2
  subst h2
  exact And.intro (FlagsOK_AND c c.regs.d hOK).1 (FlagsOK_AND c c.regs.d hOK).2

theorem pres_XOR_D : PreservesFlags XOR_D := by
  intro oi c c2 hstep hOK
  unfold XOR_D at hstep
  injection hstep with h2
  subst h2
  exact And.intro (FlagsOK_XOR c c.regs.d hOK).1 (FlagsOK_XOR c c.regs.d hOK).2

theorem pres_OR_D : PreservesFlags OR_D := by
  intro oi c c2 hstep hOK
  unfold OR_D at hstep
  injection hstep with h2
  subst h2
  exact And.intro (FlagsOK_OR c c.regs.d hOK).1 (FlagsOK_OR c c.regs.d hOK).2

theorem pres_CP_D : PreservesFlags CP_D := by
  intro oi c c2 hstep hOK
  unfold CP_D at hstep
  injection hstep with h2
  subst h2
  exact And.intro (FlagsOK_CP c c.regs.d hOK).1 (FlagsOK_CP c c.regs.d hOK).2

theorem pres_ADD_A_E : PreservesFlags ADD_A_E := by
  intro oi c c2 hstep hOK
  unfold ADD_A_E at hstep
  injection hstep with h2
  subst h2
  exact And.intro (FlagsOK_ADD c c.regs.a c.regs.e hOK).1 (FlagsOK_ADD c c.regs.a c.regs.e hOK).2

theorem pres_ADC_A_E : PreservesFlags ADC_A_E := by
  intro oi c c2 hstep hOK
  unfold ADC_A_E at hstep
  injection hstep with h2
  subst h2
  exact And.intro (FlagsOK_ADC c c.regs.e hOK).1 (FlagsOK_ADC c c.regs.e hOK).2

theorem pres_SUB_E : PreservesFlags SUB_E := by
  intro oi c c2 hstep hOK
  unfold SUB_E at hstep
  injection hstep with h2
  subst h2
  exact And.intro (FlagsOK_SUB c c.regs.e hOK).1 (FlagsOK_SUB c c.regs.e hOK).2

theorem pres_SBC_A_E : PreservesFlags SBC_A_E := by
  intro oi c c2 hstep hOK
  unfold SBC_A_E at hstep
  injection hstep with h2
  subst h2
  exact And.intro (FlagsOK_SBC c c.regs.e hOK).1 (FlagsOK_SBC c c.regs.e hOK).2

theorem pres_AND_E : PreservesFlags AND_E := by
  intro oi c c2 hstep hOK
  unfold AND_E at hstep
  injection hstep with h2
  subst h2
  exact And.intro (FlagsOK_AND c c.regs.e hOK).1 (FlagsOK_AND c c.regs.e hOK).2

theorem pres_XOR_E : PreservesFlags XOR_E := by
  intro oi c c2 hstep hOK
  unfold XOR_E at hstep
  injection hstep with h2
  subst h2
  exact And.intro (FlagsOK_XOR c c.regs.e hOK).1 (FlagsOK_XOR c c.regs.e hOK).2

theorem pres_OR_E : PreservesFlags OR_E := by
  intro oi c c2 hstep hOK
  unfold OR_E at hstep
  injection hstep with h2
  subst h2
  exact And.intro (FlagsOK_OR c c.regs.e hOK).1 (FlagsOK_OR c c.regs.e hOK).2

theorem pres_CP_E : PreservesFlags CP_E := by
  intro oi c c2 hstep hOK
  unfold CP_E at hstep
  injection hstep with h2
  subst h2
  exact And.intro (FlagsOK_CP c c.regs.e hOK).1 (FlagsOK_CP c c.regs.e hOK).2

theorem pres_ADD_A_H : PreservesFlags ADD_A_H := by
  intro oi c c2 hstep hOK
  unfold ADD_A_H at hstep
  injection hstep with h2
  subst h2
  exact And.intro (FlagsOK_ADD c c.regs.a c.regs.h hOK).1 (FlagsOK_ADD c c.regs.a c.regs.h hOK).2

theorem pres_ADC_A_H : PreservesFlags ADC_A_H := by
  intro oi c c2 hstep hOK
  unfold ADC_A_H at hstep
  injection hstep with h2
  subst h2
  exact And.intro (FlagsOK_ADC c c.regs.h hOK).1 (FlagsOK_ADC c c.regs.h hOK).2

theorem pres_SUB_H : PreservesFlags SUB_H := by
  intro oi c c2 hstep hOK
  unfold SUB_H at hstep
  injection hstep with h2
  subst h2
  exact And.intro (FlagsOK_SUB c c.regs.h hOK).1 (FlagsOK_SUB c c.regs.h hOK).2

theorem pres_SBC_A_H : PreservesFlags SBC_A_H := by
  intro oi c c2 hstep hOK
  unfold SBC_A_H at hstep
  injection hstep with h2
  subst h2
  exact And.intro (FlagsOK_SBC c c.regs.h hOK).1 (FlagsOK_SBC c c.regs.h hOK).2

theorem pres_AND_H : PreservesFlags AND_H := by
  intro oi c c2 hstep hOK
  unfold AND_H at hstep
  injection hstep with h2
  subst h2
  exact And.intro (FlagsOK_AND c c.regs.h hOK).1 (FlagsOK_AND c c.regs.h hOK).2

theorem pres_XOR_H : PreservesFlags XOR_H := by
  intro oi c c2 hstep hOK
  unfold XOR_H at hstep
  injection hstep with h2
  subst h2
  exact And.intro (FlagsOK_XOR c c.regs.h hOK).1 (FlagsOK_XOR c c.regs.h hOK).2

theorem pres_OR_H : PreservesFlags OR_H := by
  intro oi c c2 hstep hOK
  unfold OR_H at hstep
  injection hstep with h2
  subst h2
  exact And.intro (FlagsOK_OR c c.regs.h hOK).1 (FlagsOK_OR c c.regs.h hOK).2

theorem pres_CP_H : PreservesFlags CP_H := by
  intro oi c c2 hstep hOK
  unfold CP_H at hstep
  injection hstep with h2
  subst h2
  exact And.intro (FlagsOK_CP c c.regs.h hOK).1 (FlagsOK_CP c c.regs.h hOK).2

theorem pres_ADD_A_L : PreservesFlags ADD_A_L := by
  intro oi c c2 hstep hOK
  unfold ADD_A_L at hstep
  injection hstep with h2
  subst h2
  exact And.intro (FlagsOK_ADD c c.regs.a c.regs.l hOK).1 (FlagsOK_ADD c c.regs.a c.regs.l hOK).2

theorem pres_ADC_A_L : PreservesFlags ADC_A_L := by
  intro oi c c2 hstep hOK
  unfold ADC_A_L at hstep
  injection hstep with h2
  subst h2
  exact And.intro (FlagsOK_ADC c c.regs.l hOK).1 (FlagsOK_ADC c c.regs.l hOK).2

theorem pres_SUB_L : PreservesFlags SUB_L := by
  intro oi c c2 hstep hOK
  unfold SUB_L at hstep
  injection hstep with h2
  subst h2
  exact And.intro (FlagsOK_SUB c c.regs.l hOK).1 (FlagsOK_SUB c c.regs.l hOK).2

theorem pres_SBC_A_L : PreservesFlags SBC_A_L := by
  intro oi c c2 hstep hOK
  unfold SBC_A_L at hstep
  injection hstep with h2
  subst h2
  exact And.intro (FlagsOK_SBC c c.regs.l hOK).1 (FlagsOK_SBC c c.regs.l hOK).2

theorem pres_AND_L : PreservesFlags AND_L := by
  intro oi c c2 hstep hOK
  unfold AND_L at hstep
  injection hstep with h2
  subst h2
  exact And.intro (FlagsOK_AND c c.regs.l hOK).1 (FlagsOK_AND c c.regs.l hOK).2

theorem pres_XOR_L : PreservesFlags XOR_L := by
  intro oi c c2 hstep hOK
  unfold XOR_L at hstep
  injection hstep with h2
  subst h2
  exact And.intro (FlagsOK_XOR c c.regs.l hOK).1 (FlagsOK_XOR c c.regs.l hOK).2

theorem pres_OR_L : PreservesFlags OR_L := by
  intro oi c c2 hstep hOK
  unfold OR_L at hstep
  injection hstep with h2
  subst h2
  exact And.intro (FlagsOK_OR c c.regs.l hOK).1 (FlagsOK_OR c c.regs.l hOK).2

theorem pres_CP_L : PreservesFlags CP_L := by
  intro oi c c2 hstep hOK
  unfold CP_L at hstep
  injection hstep with h2
  subst h2
  exact And.intro (FlagsOK_CP c c.regs.l hOK).1 (FlagsOK_CP c c.regs.l hOK).2

theorem pres_ADD_A_A : PreservesFlags ADD_A_A := by
  intro oi c c2 hstep hOK
  unfold ADD_A_A at hstep
  injection hstep with h2
  subst h2
  exact And.intro (FlagsOK_ADD c c.regs.a c.regs.a hOK).1 (FlagsOK_ADD c c.regs.a c.regs.a hOK).2

theorem pres_ADC_A_A : PreservesFlags ADC_A_A := by
  intro oi c c2 hstep hOK
  unfold ADC_A_A at hstep
  injection hstep with h2
  subst h2
  exact And.intro (FlagsOK_ADC c c.regs.a hOK).1 (FlagsOK_ADC c c.regs.a hOK).2

theorem pres_SUB_A : PreservesFlags SUB_A := by
  intro oi c c2 hstep hOK
  unfold SUB_A at hstep
  injection hstep with h2
  subst h2
  exact And.intro (FlagsOK_SUB c c.regs.a hOK).1 (FlagsOK_SUB c c.regs.a hOK).2

theorem pres_SBC_A_A : PreservesFlags SBC_A_A := by
  intro oi c c2 hstep hOK
  unfold SBC_A_A at hstep
  injection hstep with h2
  subst h2
  exact And.intro (FlagsOK_SBC c c.regs.a hOK).1 (FlagsOK_SBC c c.regs.a hOK).2

theorem pres_AND_A : PreservesFlags AND_A := by
  intro oi c c2 hstep hOK
  unfold AND_A at hstep
  injection hstep with h2
  subst h2
  exact And.intro (FlagsOK_AND c c.regs.a hOK).1 (FlagsOK_AND c c.regs.a hOK).2

theorem pres_XOR_A : PreservesFlags XOR_A := by
  intro oi c c2 hstep hOK
  unfold XOR_A at hstep
  injection hstep with h2
  subst h2
  exact And.intro (FlagsOK_XOR c c.regs.a hOK).1 (FlagsOK_XOR c c.regs.a hOK).2

theorem pres_OR_A : PreservesFlags OR_A := by
  intro oi c c2 hstep hOK
  unfold OR_A at hstep
  injection hstep with h2
  subst h2
  exact And.intro (FlagsOK_OR c c.regs.a hOK).1 (FlagsOK_OR c c.regs.a hOK).2

theorem pres_CP_A : PreservesFlags CP_A := by
  intro oi c c2 hstep hOK
  unfold CP_A at hstep
  injection hstep with h2
  subst h2
  exact And.intro (FlagsOK_CP c c.regs.a hOK).1 (FlagsOK_CP c c.regs.a hOK).2

theorem pres_LD_BC_A : PreservesFlags LD_BC_A := by
  intro oi c c2 hstep hOK
  unfold LD_BC_A at hstep
  split at hstep
  · injection hstep with h2
    subst h2
    exact And.intro hOK.1 hOK.2
  all_goals exact Option.noConfusion hstep

theorem pres_LD_DE_A : PreservesFlags LD_DE_A := by
  intro oi c c2 hstep hOK
  unfold LD_DE_A at hstep
  split at hstep
  · injection hstep with h2
    subst h2
    exact And.intro hOK.1 hOK.2
  all_goals exact Option.noConfusion hstep

theorem pres_LDi_HLp_A : PreservesFlags LDi_HLp_A := by
  intro oi c c2 hstep hOK
  unfold LDi_HLp_A at hstep
  split at hstep
  · injection hstep with h2
    subst h2
    exact And.intro hOK.1 hOK.2
  all_goals exact Option.noConfusion hstep

theorem pres_LD_HLm_A : PreservesFlags LD_HLm_A := by
  intro oi c c2 hstep hOK
  unfold LD_HLm_A at hstep
  split at hstep
  · injection hstep with h2
    subst h2
    exact And.intro hOK.1 hOK.2
  all_goals exact Option.noConfusion hstep

theorem pres_LD_HLp_d8 : PreservesFlags LD_HLp_d8 := by
  intro oi c c2 hstep hOK
  unfold LD_HLp_d8 at hstep
  split at hstep
  · injection hstep with h2
    subst h2
    exact And.intro hOK.1 hOK.2
  all_goals exact Option.noConfusion hstep

theorem pres_LD_HLp_B : PreservesFlags LD_HLp_B := by
  intro oi c c2 hstep hOK
  unfold LD_HLp_B at hstep
  split at hstep
  · injection hstep with h2
    subst h2
    exact And.intro hOK.1 hOK.2
  all_goals exact Option.noConfusion hstep

theorem pres_LD_HLp_C : PreservesFlags LD_HLp_C := by
  intro oi c c2 hstep hOK
  unfold LD_HLp_C at hstep
  split at hstep
  · injection hstep with h2
    subst h2
    exact And.intro hOK.1 hOK.2
  all_goals exact Option.noConfusion hstep

theorem pres_LD_HLp_D : PreservesFlags LD_HLp_D := by
  intro oi c c2 hstep hOK
  unfold LD_HLp_D at hstep
  split at hstep
  · injection hstep with h2
    subst h2
    exact And.intro hOK.1 hOK.2
  all_goals exact Option.noConfusion hstep

theorem pres_LD_HLp_E : PreservesFlags LD_HLp_E := by
  intro oi c c2 hstep hOK
  unfold LD_HLp_E at hstep
  split at hstep
  · injection hstep with h2
    subst h2
    exact And.intro hOK.1 hOK.2
  all_goals exact Option.noConfusion hstep

theorem pres_LD_HLp_H : PreservesFlags LD_HLp_H := by
  intro oi c c2 hstep hOK
  unfold LD_HLp_H at hstep
  split at hstep
  · injection hstep with h2
    subst h2
    exact And.intro hOK.1 hOK.2
  all_goals exact Option.noConfusion hstep

theorem pres_LD_HLp_L : PreservesFlags LD_HLp_L := by
  intro oi c c2 hstep hOK
  unfold LD_HLp_L at hstep
  split at hstep
  · injection hstep with h2
    subst h2
    exact And.intro hOK.1 hOK.2
  all_goals exact Option.noConfusion hstep

theorem pres_LD_HL_A : PreservesFlags LD_HL_A := by
  intro oi c c2 hstep hOK
  unfold LD_HL_A at hstep
  split at hstep
  · injection hstep with h2
    subst h2
    exact And.intro hOK.1 hOK.2
  all_goals exact Option.noConfusion hstep

theorem pres_LD_A_BC : PreservesFlags LD_A_BC := by
  intro oi c c2 hstep hOK
  unfold LD_A_BC at hstep
  split at hstep
  · injection hstep with h2
    subst h2
    exact And.intro hOK.1 hOK.2
  all_goals exact Option.noConfusion hstep

theorem pres_LD_A_DE : PreservesFlags LD_A_DE := by
  intro oi c c2 hstep hOK
  unfold LD_A_DE at hstep
  split at hstep
  · injection hstep with h2
    subst h2
    exact And.intro hOK.1 hOK.2
  all_goals exact Option.noConfusion hstep

theorem pres_LDi_A_HLp : PreservesFlags LDi_A_HLp := by
  intro oi c c2 hstep hOK
  unfold LDi_A_HLp at hstep
  split at hstep
  · injection hstep with h2
    subst h2
    exact And.intro hOK.1 hOK.2
  all_goals exact Option.noConfusion hstep

theorem pres_LD_A_HLm : PreservesFlags LD_A_HLm := by
  intro oi c c2 hstep hOK
  unfold LD_A_HLm at hstep
  split at hstep
  · injection hstep with h2
    subst h2
    exact And.intro hOK.1 hOK.2
  all_goals exact Option.noConfusion hstep

theorem pres_LD_A_HLp : PreservesFlags LD_A_HLp := by
  intro oi c c2 hstep hOK
  unfold LD_A_HLp at hstep
  split at hstep
  · injection hstep with h2
    subst h2
    exact And.intro hOK.1 hOK.2
  all_goals exact Option.noConfusion hstep

theorem pres_LD_B_HLp : PreservesFlags LD_B_HLp := by
  intro oi c c2 hstep hOK
  unfold LD_B_HLp at hstep
  split at hstep
  · injection hstep with h2
    subst h2
    exact And.intro hOK.1 hOK.2
  all_goals exact Option.noConfusion hstep

theorem pres_LD_C_HLp : PreservesFlags LD_C_HLp := by
  intro oi c c2 hstep hOK
  unfold LD_C_HLp at hstep
  split at hstep
  · injection hstep with h2
    subst h2
    exact And.intro hOK.1 hOK.2
  all_goals exact Option.noConfusion hstep

theorem pres_LD_D_HLp : PreservesFlags LD_D_HLp := by
  intro oi c c2 hstep hOK
  unfold LD_D_HLp at hstep
  split at hstep
  · injection hstep with h2
    subst h2
    exact And.intro hOK.1 hOK.2
  all_goals exact Option.noConfusion hstep

theorem pres_LD_E_HLp : PreservesFlags LD_E_HLp := by
  intro oi c c2 hstep hOK
  unfold LD_E_HLp at hstep
  split at hstep
  · injection hstep with h2
    subst h2
    exact And.intro hOK.1 hOK.2
  all_goals exact Option.noConfusion hstep

theorem pres_LD_H_HLp : PreservesFlags LD_H_HLp := by
  intro oi c c2 hstep hOK
  unfold LD_H_HLp at hstep
  split at hstep
  · injection hstep with h2
    subst h2
    exact And.intro hOK.1 hOK.2
  all_goals exact Option.noConfusion hstep

theorem pres_LD_L_HLp : PreservesFlags LD_L_HLp := by
  intro oi c c2 hstep hOK
  unfold LD_L_HLp at hstep
  split at hstep
  · injection hstep with h2
    subst h2
    exact And.intro hOK.1 hOK.2
  all_goals exact Option.noConfusion hstep

theorem pres_ADD_A_HL : PreservesFlags ADD_A_HL := by
  intro oi c c2 hstep hOK
  unfold ADD_A_HL at hstep
  split at hstep
  · rename_i v hv
    injection hstep with h2
    subst h2
    exact And.intro (FlagsOK_ADD c c.regs.a v hOK).1 (FlagsOK_ADD c c.regs.a v hOK).2
  all_goals exact Option.noConfusion hstep

theorem pres_ADC_A_HL : PreservesFlags ADC_A_HL := by
  intro oi c c2 hstep hOK
  unfold ADC_A_HL at hstep
  split at hstep
  · rename_i v hv
    injection hstep with h2
    subst h2
    exact And.intro (FlagsOK_ADC c v hOK).1 (FlagsOK_ADC c v hOK).2
  all_goals exact Option.noConfusion hstep

theorem pres_SUB_HL : PreservesFlags SUB_HL := by
  intro oi c c2 hstep hOK
  unfold SUB_HL at hstep
  split at hstep
  · rename_i v hv
    injection hstep with h2
    subst h2
    exact And.intro (FlagsOK_SUB c v hOK).1 (FlagsOK_SUB c v hOK).2
  all_goals exact Option.noConfusion hstep

theorem pres_SBC_A_HL : PreservesFlags SBC_A_HL := by
  intro oi c c2 hstep hOK
  unfold SBC_A_HL at hstep
  split at hstep
  · rename_i v hv
    injection hstep with h2
    subst h2
    exact And.intro (FlagsOK_SBC c v hOK).1 (FlagsOK_SBC c v hOK).2
  all_goals exact Option.noConfusion hstep

theorem pres_AND_HL : PreservesFlags AND_HL := by
  intro oi c c2 hstep hOK
  unfold AND_HL at hstep
  split at hstep
  · rename_i v hv
    injection hstep with h2
    subst h2
    exact And.intro (FlagsOK_AND c v hOK).1 (FlagsOK_AND c v hOK).2
  all_goals exact Option.noConfusion hstep

theorem pres_XOR_HL : PreservesFlags XOR_HL := by
  intro oi c c2 hstep hOK
  unfold XOR_HL at hstep
  split at hstep
  · rename_i v hv
    injection hstep with h2
    subst h2
    exact And.intro (FlagsOK_XOR c v hOK).1 (FlagsOK_XOR c v hOK).2
  all_goals exact Option.noConfusion hstep

theorem pres_OR_HL : PreservesFlags OR_HL := by
  intro oi c c2 hstep hOK
  unfold OR_HL at hstep
  split at hstep
  · rename_i v hv
    injection hstep with h2
    subst h2
    exact And.intro (FlagsOK_OR c v hOK).1 (FlagsOK_OR c v hOK).2
  all_goals exact Option.noConfusion hstep

theorem pres_CP_HL : PreservesFlags CP_HL := by
  intro oi c c2 hstep hOK
  unfold CP_HL at hstep
  split at hstep
  · rename_i v hv
    injection hstep with h2
    subst h2
    exact And.intro (FlagsOK_CP c v hOK).1 (FlagsOK_CP c v hOK).2
  all_goals exact Option.noConfusion hstep

theorem pres_INC_HLp : PreservesFlags INC_HLp := by
  intro oi c c2 hstep hOK
  unfold INC_HLp at hstep
  split at hstep
  · rename_i v hv
    dsimp only [] at hstep
    split at hstep
    · injection hstep with h2
      subst h2
      exact And.intro (FlagsOK_INC c v hOK).1 (FlagsOK_INC c v hOK).2
    · exact Option.noConfusion hstep
  all_goals exact Option.noConfusion hstep

theorem pres_DEC_HLp : PreservesFlags DEC_HLp := by
  intro oi c c2 hstep hOK
  unfold DEC_HLp at hstep
  split at hstep
  · rename_i v hv
    dsimp only [] at hstep
    split at hstep
    · injection hstep with h2
      subst h2
      exact And.intro (FlagsOK_DEC c v hOK).1 (FlagsOK_DEC c v hOK).2
    · exact Option.noConfusion hstep
  all_goals exact Option.noConfusion hstep

/-! ## The reachability invariant (claim C10) -/

/-- Every entry of the dispatch table preserves the flags invariant; the
zero-filled tail has length 0 and its execute is never run successfully.
-/
theorem table_preserves (op : Nat) :
    PreservesFlags (CreateTable op).execute := by
  rcases Nat.lt_or_ge op 192 with hlt | hge
  · interval_cases op
    exacts [pres_NOP,
      pres_LD_BC_d16,
      pres_LD_BC_A,
      pres_INC_BC,
      pres_INC_B,
      pres_DEC_B,
      pres_LD_B_d8,
      pres_RLCA,
      pres_LD_a16_SP,
      pres_ADD_HL_BC,
      pres_LD_A_BC,
      pres_DEC_BC,
      pres_INC_C,
      pres_DEC_C,
      pres_LD_C_d8,
      pres_RRCA,
      pres_STOP,
      pres_LD_DE_d16,
      pres_LD_DE_A,
      pres_INC_DE,
      pres_INC_D,
      pres_DEC_D,
      pres_LD_D_d8,
      pres_RLA,
      pres_JR_r8,
      pres_ADD_HL_DE,
      pres_LD_A_DE,
      pres_DEC_DE,
      pres_INC_E,
      pres_DEC_E,
      pres_LD_E_d8,
      pres_RRA,
      pres_JR_NZ_r8,
      pres_LD_HL_d16,
      pres_LDi_HLp_A,
      pres_INC_HL,
      pres_INC_H,
      pres_DEC_H,
      pres_LD_H_d8,
      pres_DAA,
      pres_JR_Z_r8,
      pres_ADD_HL_HL,
      pres_LDi_A_HLp,
      pres_DEC_HL,
      pres_INC_L,
      pres_DEC_L,
      pres_LD_L_d8,
      pres_CPL,
      pres_JR_NC_r8,
      pres_LD_SP_d16,
      pres_LD_HLm_A,
      pres_INC_SP,
      pres_INC_HLp,
      pres_DEC_HLp,
      pres_LD_HLp_d8,
      pres_SCF,
      pres_JR_C_r8,
      pres_ADD_HL_SP,
      pres_LD_A_HLm,
      pres_DEC_SP,
      pres_INC_A,
      pres_DEC_A,
      pres_LD_A_d8,
      pres_CCF,
      pres_LD_B_B,
      pres_LD_B_C,
      pres_LD_B_D,
      pres_LD_B_E,
      pres_LD_B_H,
      pres_LD_B_L,
      pres_LD_B_HLp,
      pres_LD_B_A,
      pres_LD_C_B,
      pres_LD_C_C,
      pres_LD_C_D,
      pres_LD_C_E,
      pres_LD_C_H,
      pres_LD_C_L,
      pres_LD_C_HLp,
      pres_LD_C_A,
      pres_LD_D_B,
      pres_LD_D_C,
      pres_LD_D_D,
      pres_LD_D_E,
      pres_LD_D_H,
      pres_LD_D_L,
      pres_LD_D_HLp,
      pres_LD_D_A,
      pres_LD_E_B,
      pres_LD_E_C,
      pres_LD_E_D,
      pres_LD_E_E,
      pres_LD_E_H,
      pres_LD_E_L,
      pres_LD_E_HLp,
      pres_LD_E_A,
      pres_LD_H_B,
      pres_LD_H_C,
      pres_LD_H_D,
      pres_LD_H_E,
      pres_LD_H_H,
      pres_LD_H_L,
      pres_LD_H_HLp,
      pres_LD_H_A,
      pres_LD_L_B,
      pres_LD_L_C,
      pres_LD_L_D,
      pres_LD_L_E,
      pres_LD_L_H,
      pres_LD_L_L,
      pres_LD_L_HLp,
      pres_LD_L_A,
      pres_LD_HLp_B,
      pres_LD_HLp_C,
      pres_LD_HLp_D,
      pres_LD_HLp_E,
      pres_LD_HLp_H,
      pres_LD_HLp_L,
      pres_HALT,
      pres_LD_HL_A,
      pres_LD_A_B,
      pres_LD_A_C,
      pres_LD_A_D,
      pres_LD_A_E,
      pres_LD_A_H,
      pres_LD_A_L,
      pres_LD_A_HLp,
      pres_LD_A_A,
      pres_ADD_A_B,
      pres_ADD_A_C,
      pres_ADD_A_D,
      pres_ADD_A_E,
      pres_ADD_A_H,
      pres_ADD_A_L,
      pres_ADD_A_HL,
      pres_ADD_A_A,
      pres_ADC_A_B,
      pres_ADC_A_C,
      pres_ADC_A_D,
      pres_ADC_A_E,
      pres_ADC_A_H,
      pres_ADC_A_L,
      pres_ADC_A_HL,
      pres_ADC_A_A,
      pres_SUB_B,
      pres_SUB_C,
      pres_SUB_D,
      pres_SUB_E,
      pres_SUB_H,
      pres_SUB_L,
      pres_SUB_HL,
      pres_SUB_A,
      pres_SBC_A_B,
      pres_SBC_A_C,
      pres_SBC_A_D,
      pres_SBC_A_E,
      pres_SBC_A_H,
      pres_SBC_A_L,
      pres_SBC_A_HL,
      pres_SBC_A_A,
      pres_AND_B,
      pres_AND_C,
      pres_AND_D,
      pres_AND_E,
      pres_AND_H,
      pres_AND_L,
      pres_AND_HL,
      pres_AND_A,
      pres_XOR_B,
      pres_XOR_C,
      pres_XOR_D,
      pres_XOR_E,
      pres_XOR_H,
      pres_XOR_L,
      pres_XOR_HL,
      pres_XOR_A,
      pres_OR_B,
      pres_OR_C,
      pres_OR_D,
      pres_OR_E,
      pres_OR_H,
      pres_OR_L,
      pres_OR_HL,
      pres_OR_A,
      pres_CP_B,
      pres_CP_C,
      pres_CP_D,
      pres_CP_E,
      pres_CP_H,
      pres_CP_L,
      pres_CP_HL,
      pres_CP_A]
  · rw [createTable_zero_of_ge op hge]
    exact preservesFlags_zeroInstruction

/-- The CPU states reachable from a zero-initialized register file by any
sequence of `Reset` calls, flag-setter calls and instruction executions
(the execute effects installed in the dispatch table). -/
inductive ReachableCPU : CPU → Prop where
  | init (mem : MemoryMap) (ticks : Nat) (stopped : Bool) :
      ReachableCPU
        { regs := zeroRegisters, mem := mem, ticks := ticks, stopped := stopped }
  | reset {c : CPU} : ReachableCPU c → ReachableCPU (Reset c)
  | setZero {c : CPU} (v : Bool) : ReachableCPU c →
      ReachableCPU { c with regs := c.regs.SetZero v }
  | setSubtract {c : CPU} (v : Bool) : ReachableCPU c →
      ReachableCPU { c with regs := c.regs.SetSubtract v }
  | setHalfCarry {c : CPU} (v : Bool) : ReachableCPU c →
      ReachableCPU { c with regs := c.regs.SetHalfCarry v }
  | setCarry {c : CPU} (v : Bool) : ReachableCPU c →
      ReachableCPU { c with regs := c.regs.SetCarry v }
  | exec {c c2 : CPU} (op : Nat) (oi : OperandInfo) : ReachableCPU c →
      (CreateTable op).execute oi c = some c2 → ReachableCPU c2

/-- Every reachable state satisfies the full flags invariant. -/
theorem reachable_FlagsOK (c : CPU) (h : ReachableCPU c) : FlagsOK c.regs := by
  induction h with
  | init mem ticks stopped =>
      exact And.intro (show zeroRegisters.f < 256 by decide)
        (show zeroRegisters.f &&& 0xF = 0 by decide)
  | reset _ ih => exact And.intro ih.1 ih.2
  | setZero v _ ih => exact FlagsOK_SetZero _ v ih
  | setSubtract v _ ih => exact FlagsOK_SetSubtract _ v ih
  | setHalfCarry v _ ih => exact FlagsOK_SetHalfCarry _ v ih
  | setCarry v _ ih => exact FlagsOK_SetCarry _ v ih
  | exec op oi _ hstep ih => exact table_preserves op oi _ _ hstep ih

/-- The zero-initialized, zero-memory CPU. -/
def initialCPU : CPU :=
  { regs := zeroRegisters, mem := zeroMemoryMap, ticks := 0, stopped := false }

/-- C10: in every CPU state reachable from the zero-initialized register
file by any sequence of `Reset` calls, flag-setter calls and instruction
executions, the low four bits of the flags register `F` are zero. -/
theorem flags_low_nibble_always_zero (c : CPU) (h : ReachableCPU c) :
    c.regs.f &&& 0xF = 0 :=
  (reachable_FlagsOK c h).2

/-- Witness for C10: the invariant at the initial state itself. -/
theorem flags_low_nibble_always_zero_witness :
    initialCPU.regs.f &&& 0xF = 0 :=
  flags_low_nibble_always_zero initialCPU (ReachableCPU.init zeroMemoryMap 0 false)

end GoGB
